import Mathlib

/-!
Verification development for the `sn-testnet-deploy` deployment pipeline
(`src/deploy.rs` and `src/private_nodes.rs`).

The Rust sources are shallowly embedded: the hand-assembled "extra vars"
string builders become Lean functions on `String` (a wrapper around
`List Char`), fallible calls return `Except Failure`, where `Failure`
distinguishes a recoverable `Error` from a Rust panic, collaborator calls
(terraform, ansible, ssh) are supplied as an environment of results, and
the `println!` side effects are collected as a list of emitted lines.
-/

set_option maxRecDepth 8192

namespace SnDeploy

/-- Modelled from the spec: the role groups of an ansible inventory
(`AnsibleInventoryType` lives in `src/ansible.rs`, which is not among the
sources; §3 of the spec lists the roles). Only the roles used by the
embedded code are modelled. -/
inductive AnsibleInventoryType where
  | nodes
  | natGateway
deriving DecidableEq

/-- Modelled from the spec: the error module (`src/error.rs`) is not among
the sources; §7 names the error kinds. `genesisMultiAddrNotSupplied` is the
"genesis address required but missing" programming-contract error,
`emptyInventory` is *InventoryEmpty(role)*, and `external` stands for any
error produced by a collaborator (provisioner, runner, ssh). -/
inductive Error where
  | genesisMultiAddrNotSupplied
  | emptyInventory (inventoryType : AnsibleInventoryType)
  | external (description : String)
deriving DecidableEq

/-- Outcome of a fallible Rust computation: a recoverable `Result::Err`
carrying an `Error`, or an aborting panic (e.g. out-of-bounds indexing,
`Option::unwrap` on `None`). -/
inductive Failure where
  | error (e : Error)
  | panic (message : String)
deriving DecidableEq

/-- Modelled from the spec: debug rendering (`{err:?}`) of error values;
the `Debug` derive lives with the missing error module. Only used inside
diagnostic lines, never inspected. -/
def AnsibleInventoryType.debugStr : AnsibleInventoryType → String
  | .nodes => "Nodes"
  | .natGateway => "NatGateway"

/-- Modelled from the spec: debug rendering of `Error` values. -/
def Error.debugStr : Error → String
  | .genesisMultiAddrNotSupplied => "GenesisMultiAddrNotSupplied"
  | .emptyInventory t => "EmptyInventory(" ++ t.debugStr ++ ")"
  | .external s => s

/-- The `SnCodebaseType` tagged union (the spec's Codebase Variant):
*PreBuilt/Main* with optional feature flags, *Branch* with owner, branch
and optional feature flags, *Versioned* with a version string. -/
inductive SnCodebaseType where
  | main (safenode_features : Option String)
  | branch (repo_owner : String) (branch_name : String) (safenode_features : Option String)
  | versioned (safenode_version : String)
deriving DecidableEq

/-- The `DeployCmd` deployment configuration (struct fields of
`DeployCmd` in `src/deploy.rs`). `provider` is the rendering of
`testnet_deploy.cloud_provider.to_string()`; socket addresses in
`logstash_details` are modelled by their `Display` strings. -/
structure DeployCmd where
  name : String
  node_count : Nat
  vm_count : Nat
  public_rpc : Bool
  logstash_details : Option (String × List String)
  sn_codebase_type : SnCodebaseType
  env_variables : Option (List (String × String))
  provider : String
deriving DecidableEq

/-- `DeployCmd::add_value`: appends `"name": "value", ` to the document. -/
def add_value (document : String) (key value : String) : String :=
  document ++ ("\"" ++ key ++ "\": \"" ++ value ++ "\", ")

/-- Rust `str::strip_suffix`: the string without the given suffix, or
`none` when the suffix does not match. -/
def strip_suffix (s sfx : String) : Option String :=
  if sfx.data <:+ s.data then
    some (String.mk (s.data.take (s.data.length - sfx.data.length)))
  else none

/-- The `build_required` derivation at the start of `DeployCmd::execute`
(`build_custom_binaries`, deploy.rs lines 50-56). -/
def build_required (t : SnCodebaseType) : Bool :=
  match t with
  | .main safenode_features => safenode_features.isSome
  | .branch _ _ _ => true
  | .versioned _ => false

/-- `DeployCmd::build_binaries_extra_vars_doc` (deploy.rs lines 281-320). -/
def build_binaries_extra_vars_doc (self : DeployCmd) : Except Failure String :=
  let extra_vars := "\x7b "
  let extra_vars :=
    match self.sn_codebase_type with
    | .main safenode_features =>
      match safenode_features with
      | some features =>
        let extra_vars := add_value extra_vars "custom_bin" "true"
        let extra_vars := add_value extra_vars "testnet_name" self.name
        let extra_vars := add_value extra_vars "org" "maidsafe"
        let extra_vars := add_value extra_vars "branch" "main"
        add_value extra_vars "safenode_features_list" features
      | none => add_value extra_vars "custom_bin" "false"
    | .branch repo_owner branch_name safenode_features =>
      let extra_vars := add_value extra_vars "custom_bin" "true"
      let extra_vars := add_value extra_vars "testnet_name" self.name
      let extra_vars := add_value extra_vars "org" repo_owner
      let extra_vars := add_value extra_vars "branch" branch_name
      match safenode_features with
      | some features => add_value extra_vars "safenode_features_list" features
      | none => extra_vars
    | .versioned _ => add_value extra_vars "custom_bin" "false"
  match strip_suffix extra_vars ", " with
  | some stripped => Except.ok (stripped ++ " \x7d")
  | none => Except.error (Failure.panic "called Option.unwrap on a None value")

/-- The opening section of `DeployCmd::build_node_extra_vars_doc`
(deploy.rs lines 327-352): provider, testnet name, the conditional
genesis multiaddr (with the `ok_or_else` contract error), the conditional
instance count (`unwrap_or(20)`), and the conditional `public_rpc`. -/
def node_vars_base (self : DeployCmd) (genesis_multiaddr : Option String)
    (node_instance_count : Option Nat) : Except Failure String :=
  let extra_vars := "\x7b "
  let extra_vars := add_value extra_vars "provider" self.provider
  let extra_vars := add_value extra_vars "testnet_name" self.name
  match
    (if genesis_multiaddr.isSome then
      match genesis_multiaddr with
      | some addr => Except.ok (add_value extra_vars "genesis_multiaddr" addr)
      | none => Except.error (Failure.error Error.genesisMultiAddrNotSupplied)
    else Except.ok extra_vars) with
  | Except.error e => Except.error e
  | Except.ok extra_vars =>
    let extra_vars :=
      if node_instance_count.isSome then
        add_value extra_vars "node_instance_count" (Nat.repr (node_instance_count.getD 20))
      else extra_vars
    let extra_vars :=
      if self.public_rpc then add_value extra_vars "public_rpc" "true" else extra_vars
    Except.ok extra_vars

/-- The artifact-locator section of `build_node_extra_vars_doc`
(deploy.rs lines 354-383): `node_archive_url` for Main/Branch,
`version` for Versioned. -/
def node_vars_artifact (self : DeployCmd) (extra_vars : String) : String :=
  match self.sn_codebase_type with
  | .main safenode_features =>
    let node_archive_url :=
      if safenode_features.isSome then
        "https://sn-node.s3.eu-west-2.amazonaws.com/maidsafe/main/safenode-" ++ self.name
          ++ "-x86_64-unknown-linux-musl.tar.gz"
      else
        "https://sn-node.s3.eu-west-2.amazonaws.com/safenode-latest-x86_64-unknown-linux-musl.tar.gz"
    add_value extra_vars "node_archive_url" node_archive_url
  | .branch repo_owner branch_name _ =>
    add_value extra_vars "node_archive_url"
      ("https://sn-node.s3.eu-west-2.amazonaws.com/" ++ repo_owner ++ "/" ++ branch_name
        ++ "/safenode-" ++ self.name ++ "-x86_64-unknown-linux-musl.tar.gz")
  | .versioned safenode_version =>
    add_value extra_vars "version" safenode_version

/-- The node-manager-url section of `build_node_extra_vars_doc`
(deploy.rs lines 386-409). -/
def node_vars_manager (self : DeployCmd) (extra_vars : String) : String :=
  match self.sn_codebase_type with
  | .branch repo_owner branch_name _ =>
    let extra_vars := add_value extra_vars "branch" branch_name
    let extra_vars := add_value extra_vars "org" repo_owner
    add_value extra_vars "node_manager_archive_url"
      ("https://sn-node.s3.eu-west-2.amazonaws.com/" ++ repo_owner ++ "/" ++ branch_name
        ++ "/safenode-manager-" ++ self.name ++ "-x86_64-unknown-linux-musl.tar.gz")
  | _ =>
    add_value extra_vars "node_manager_archive_url"
      "https://sn-node-manager.s3.eu-west-2.amazonaws.com/safenode-manager-latest-x86_64-unknown-linux-musl.tar.gz"

/-- The node-manager-daemon-url section of `build_node_extra_vars_doc`
(deploy.rs lines 411-435). NOTE: the source's non-Branch arm writes the
daemon archive URL under the key `node_manager_archive_url` (not
`node_manager_daemon_archive_url`); the embedding reproduces this. -/
def node_vars_daemon (self : DeployCmd) (extra_vars : String) : String :=
  match self.sn_codebase_type with
  | .branch repo_owner branch_name _ =>
    let extra_vars := add_value extra_vars "branch" branch_name
    let extra_vars := add_value extra_vars "org" repo_owner
    add_value extra_vars "node_manager_daemon_archive_url"
      ("https://sn-node.s3.eu-west-2.amazonaws.com/" ++ repo_owner ++ "/" ++ branch_name
        ++ "/safenode-manager-daemon-" ++ self.name ++ "-x86_64-unknown-linux-musl.tar.gz")
  | _ =>
    add_value extra_vars "node_manager_archive_url"
      "https://sn-node-manager.s3.eu-west-2.amazonaws.com/safenode-manager-daemon-latest-x86_64-unknown-linux-musl.tar.gz"

/-- Rust `Vec::join` on strings with a separator. -/
def join_with (sep : String) : List String → String
  | [] => ""
  | [s] => s
  | s :: rest => s ++ sep ++ join_with sep rest

/-- The env-variables section of `build_node_extra_vars_doc`
(deploy.rs lines 437-444): `key=val` pairs joined with commas. -/
def node_vars_env (self : DeployCmd) (extra_vars : String) : String :=
  match self.env_variables with
  | some env_vars =>
    let env_vars_strs := env_vars.map (fun p => p.fst ++ "=" ++ p.snd)
    add_value extra_vars "env_variables" (join_with "," env_vars_strs)
  | none => extra_vars

/-- The logstash section and closing brace of `build_node_extra_vars_doc`
(deploy.rs lines 446-457). NOTE: in the source the `strip_suffix(", ")`
result and the pushed `']'` land on a shadowed inner binding that is
dropped at the end of the block, so the outer document keeps its trailing
`, ` and never receives the closing bracket; only the `unwrap` panic of
the shadowed computation escapes. The embedding reproduces this. -/
def node_vars_logstash_close (self : DeployCmd) (extra_vars : String) :
    Except Failure String :=
  match self.logstash_details with
  | some (logstash_stack_name, logstash_hosts) =>
    let extra_vars := add_value extra_vars "logstash_stack_name" logstash_stack_name
    let extra_vars := extra_vars ++ "\"logstash_hosts\": ["
    let extra_vars := logstash_hosts.foldl (fun acc host => acc ++ ("\"" ++ host ++ "\", ")) extra_vars
    match strip_suffix extra_vars ", " with
    | some stripped =>
      let _shadowed := stripped ++ "]"
      Except.ok (extra_vars ++ "\x7d")
    | none => Except.error (Failure.panic "called Option.unwrap on a None value")
  | none => Except.ok (extra_vars ++ "\x7d")

/-- `DeployCmd::build_node_extra_vars_doc` (deploy.rs lines 322-458),
assembled from its sections in source order. -/
def build_node_extra_vars_doc (self : DeployCmd) (genesis_multiaddr : Option String)
    (node_instance_count : Option Nat) : Except Failure String :=
  match node_vars_base self genesis_multiaddr node_instance_count with
  | Except.error e => Except.error e
  | Except.ok extra_vars =>
    node_vars_logstash_close self
      (node_vars_env self
        (node_vars_daemon self
          (node_vars_manager self
            (node_vars_artifact self extra_vars))))

/-- `DeployCmd::build_faucet_extra_vars_doc` (deploy.rs lines 460-498). -/
def build_faucet_extra_vars_doc (self : DeployCmd) (genesis_multiaddr : String) :
    Except Failure String :=
  let extra_vars := "\x7b "
  let extra_vars := add_value extra_vars "provider" self.provider
  let extra_vars := add_value extra_vars "testnet_name" self.name
  let extra_vars := add_value extra_vars "genesis_multiaddr" genesis_multiaddr
  let extra_vars :=
    match self.sn_codebase_type with
    | .branch repo_owner branch_name _ =>
      let extra_vars := add_value extra_vars "branch" branch_name
      let extra_vars := add_value extra_vars "org" repo_owner
      add_value extra_vars "faucet_archive_url"
        ("https://sn-node.s3.eu-west-2.amazonaws.com/" ++ repo_owner ++ "/" ++ branch_name
          ++ "/faucet-" ++ self.name ++ "-x86_64-unknown-linux-musl.tar.gz")
    | _ =>
      add_value extra_vars "faucet_archive_url"
        "https://sn-faucet.s3.eu-west-2.amazonaws.com/faucet-latest-x86_64-unknown-linux-musl.tar.gz"
  match strip_suffix extra_vars ", " with
  | some stripped => Except.ok (stripped ++ " \x7d")
  | none => Except.error (Failure.panic "called Option.unwrap on a None value")

/-- `DeployCmd::build_safenode_rpc_client_extra_vars_doc`
(deploy.rs lines 500-537). -/
def build_safenode_rpc_client_extra_vars_doc (self : DeployCmd)
    (genesis_multiaddr : String) : Except Failure String :=
  let extra_vars := "\x7b "
  let extra_vars := add_value extra_vars "provider" self.provider
  let extra_vars := add_value extra_vars "testnet_name" self.name
  let extra_vars := add_value extra_vars "genesis_multiaddr" genesis_multiaddr
  let extra_vars :=
    match self.sn_codebase_type with
    | .branch repo_owner branch_name _ =>
      let extra_vars := add_value extra_vars "branch" branch_name
      let extra_vars := add_value extra_vars "org" repo_owner
      add_value extra_vars "safenode_rpc_client_archive_url"
        ("https://sn-node.s3.eu-west-2.amazonaws.com/" ++ repo_owner ++ "/" ++ branch_name
          ++ "/safenode_rpc_client-" ++ self.name ++ "-x86_64-unknown-linux-musl.tar.gz")
    | _ =>
      add_value extra_vars "safenode_rpc_client_archive_url"
        "https://sn-node-rpc-client.s3.eu-west-2.amazonaws.com/safenode_rpc_client-latest-x86_64-unknown-linux-musl.tar.gz"
  match strip_suffix extra_vars ", " with
  | some stripped => Except.ok (stripped ++ " \x7d")
  | none => Except.error (Failure.panic "called Option.unwrap on a None value")

/-! ### Textual predicates over extra-vars documents -/

/-- `pat` occurs contiguously inside `doc` (Rust `str::contains`). -/
abbrev containsSub (doc pat : String) : Prop := pat.data <:+: doc.data

/-- The document textually carries key `k`, i.e. the rendered fragment
`"k": "` occurs in it. -/
abbrev hasKey (doc k : String) : Prop := containsSub doc ("\"" ++ k ++ "\": \"")

/-- The document textually carries the rendered pair `"k": "v", `. -/
abbrev hasPair (doc k v : String) : Prop :=
  containsSub doc ("\"" ++ k ++ "\": \"" ++ v ++ "\", ")

theorem infix_append_right {α : Type} {t l : List α} (u : List α) (h : t <:+: l) :
    t <:+: l ++ u := by
  obtain ⟨s, e, he⟩ := h
  exact ⟨s, e ++ u, by rw [← he]; simp⟩

theorem infix_append_left {α : Type} {t l : List α} (u : List α) (h : t <:+: l) :
    t <:+: u ++ l := by
  obtain ⟨s, e, he⟩ := h
  exact ⟨u ++ s, e, by rw [← he]; simp⟩

/-! ### C6: the derived build flag -/

/-- The claim's specification of the flag, stated from the spec's words:
false for *Versioned*, true for *Branch*, and for *PreBuilt* (Main) true
iff feature flags are present. -/
def build_required_spec (t : SnCodebaseType) : Bool :=
  match t with
  | .versioned _ => false
  | .branch _ _ _ => true
  | .main safenode_features => safenode_features.isSome

/-- C6: for all three Codebase Variants, the `build_required` flag derived
at the start of `DeployCmd::execute` equals the specified value: false for
Versioned, true for Branch, and for PreBuilt/Main true iff a feature-flag
list is present. -/
theorem claim_C6 : ∀ t : SnCodebaseType, build_required t = build_required_spec t := by
  intro t
  cases t <;> rfl

/-! ### C2/C3/C4: concrete node-stage documents exhibiting the builder bugs -/

/-- A plain deployment configuration: Main variant, no feature flags, no
log shipping, no env variables, RPC private. -/
abbrev c2_cfg : DeployCmd :=
  { name := "beta", node_count := 20, vm_count := 10, public_rpc := false,
    logstash_details := none, sn_codebase_type := .main none,
    env_variables := none, provider := "digital-ocean" }

/-- The node-stage document the source produces for `c2_cfg` (genesis
stage call, no genesis address, no instance count). -/
def c2_doc : String :=
  "\x7b \"provider\": \"digital-ocean\", \"testnet_name\": \"beta\", \"node_archive_url\": \"https://sn-node.s3.eu-west-2.amazonaws.com/safenode-latest-x86_64-unknown-linux-musl.tar.gz\", \"node_manager_archive_url\": \"https://sn-node-manager.s3.eu-west-2.amazonaws.com/safenode-manager-latest-x86_64-unknown-linux-musl.tar.gz\", \"node_manager_archive_url\": \"https://sn-node-manager.s3.eu-west-2.amazonaws.com/safenode-manager-daemon-latest-x86_64-unknown-linux-musl.tar.gz\", \x7d"

/-- C2: the node-stage builder does NOT strip the trailing `, ` before the
closing brace: on a plain configuration the produced document ends with
`", \x7d` — the two characters `, ` stand immediately before the closing
brace, contradicting the claim for the node stage. -/
theorem claim_C2 :
    build_node_extra_vars_doc c2_cfg none none = Except.ok c2_doc
      ∧ [',', ' ', '\x7d'] <:+ c2_doc.data := by
  exact ⟨rfl, by decide⟩

/-- Configuration with log shipping to two hosts. -/
abbrev c3_cfg : DeployCmd :=
  { c2_cfg with logstash_details := some ("main", ["127.0.0.1:5044", "10.0.0.1:5044"]) }

/-- The node-stage document the source produces for `c3_cfg`. -/
def c3_doc : String :=
  "\x7b \"provider\": \"digital-ocean\", \"testnet_name\": \"beta\", \"node_archive_url\": \"https://sn-node.s3.eu-west-2.amazonaws.com/safenode-latest-x86_64-unknown-linux-musl.tar.gz\", \"node_manager_archive_url\": \"https://sn-node-manager.s3.eu-west-2.amazonaws.com/safenode-manager-latest-x86_64-unknown-linux-musl.tar.gz\", \"node_manager_archive_url\": \"https://sn-node-manager.s3.eu-west-2.amazonaws.com/safenode-manager-daemon-latest-x86_64-unknown-linux-musl.tar.gz\", \"logstash_stack_name\": \"main\", \"logstash_hosts\": [\"127.0.0.1:5044\", \"10.0.0.1:5044\", \x7d"

/-- C3: with log shipping configured (stack `main`, two hosts), the
`logstash_hosts` field is NOT rendered as `["v1", "v2"]`: the stripped and
bracket-closed string lands on a shadowed binding that the source drops,
so the document keeps the trailing `", ` after the last host and contains
no `]` at all. -/
theorem claim_C3 :
    build_node_extra_vars_doc c3_cfg none none = Except.ok c3_doc
      ∧ containsSub c3_doc "\"logstash_hosts\": [\"127.0.0.1:5044\", \"10.0.0.1:5044\", \x7d"
      ∧ ¬ containsSub c3_doc "]" := by
  refine ⟨rfl, by decide, by decide⟩

/-- Configuration with the Versioned variant. -/
abbrev c4_cfg : DeployCmd := { c2_cfg with sn_codebase_type := .versioned "0.1.0" }

/-- The node-stage document the source produces for `c4_cfg`. -/
def c4_doc : String :=
  "\x7b \"provider\": \"digital-ocean\", \"testnet_name\": \"beta\", \"version\": \"0.1.0\", \"node_manager_archive_url\": \"https://sn-node-manager.s3.eu-west-2.amazonaws.com/safenode-manager-latest-x86_64-unknown-linux-musl.tar.gz\", \"node_manager_archive_url\": \"https://sn-node-manager.s3.eu-west-2.amazonaws.com/safenode-manager-daemon-latest-x86_64-unknown-linux-musl.tar.gz\", \x7d"

/-- C4: for the Versioned variant the node-stage document carries NO
`node_manager_daemon_archive_url` key: the daemon URL section's non-Branch
arm writes the daemon archive URL under the key
`node_manager_archive_url` (duplicated), so the daemon key only ever
appears for the Branch variant. -/
theorem claim_C4 :
    build_node_extra_vars_doc c4_cfg none none = Except.ok c4_doc
      ∧ ¬ hasKey c4_doc "node_manager_daemon_archive_url"
      ∧ hasPair c4_doc "node_manager_archive_url"
          "https://sn-node-manager.s3.eu-west-2.amazonaws.com/safenode-manager-daemon-latest-x86_64-unknown-linux-musl.tar.gz" := by
  refine ⟨rfl, by decide, by decide⟩

/-! ### C5: faucet/RPC-client builders and the genesis address -/

/-- The faucet document the source produces for `c4_cfg` with an EMPTY
genesis address. -/
def c5_faucet_doc : String :=
  "\x7b \"provider\": \"digital-ocean\", \"testnet_name\": \"beta\", \"genesis_multiaddr\": \"\", \"faucet_archive_url\": \"https://sn-faucet.s3.eu-west-2.amazonaws.com/faucet-latest-x86_64-unknown-linux-musl.tar.gz\" \x7d"

/-- The RPC-client document the source produces for `c4_cfg` with an
EMPTY genesis address. -/
def c5_rpc_doc : String :=
  "\x7b \"provider\": \"digital-ocean\", \"testnet_name\": \"beta\", \"genesis_multiaddr\": \"\", \"safenode_rpc_client_archive_url\": \"https://sn-node-rpc-client.s3.eu-west-2.amazonaws.com/safenode_rpc_client-latest-x86_64-unknown-linux-musl.tar.gz\" \x7d"

/-- C5 counterexample: fed the empty genesis-address string, both the
faucet builder and the RPC-client builder SUCCEED (no emptiness check
exists in the source), contradicting the claim that construction fails
for an empty genesis address. -/
theorem claim_C5_cex :
    build_faucet_extra_vars_doc c4_cfg "" = Except.ok c5_faucet_doc
      ∧ build_safenode_rpc_client_extra_vars_doc c4_cfg "" = Except.ok c5_rpc_doc := by
  exact ⟨rfl, rfl⟩

theorem strip_suffix_of_data {s : String} {l : List Char} (h : s.data = l ++ [',', ' ']) :
    strip_suffix s ", " = some (String.mk l) := by
  have hsfx : (", " : String).data <:+ s.data := ⟨l, by rw [h]⟩
  unfold strip_suffix
  rw [if_pos hsfx, h]
  have hlen : (l ++ [',', ' ']).length - (", " : String).data.length = l.length := by
    simp [String.data]
  rw [hlen]
  exact congrArg (fun x => some (String.mk x)) (List.take_left' rfl)

theorem strip_keeps {s pat : String} {Y l : List Char}
    (hs : s.data = Y ++ l ++ [',', ' ']) (hpat : pat.data <:+: Y) :
    ∃ d, strip_suffix s ", " = some d ∧ containsSub (d ++ " \x7d") pat := by
  refine ⟨String.mk (Y ++ l), strip_suffix_of_data hs, ?_⟩
  show pat.data <:+: (String.mk (Y ++ l) ++ " \x7d").data
  rw [String.data_append]
  exact infix_append_right _ (infix_append_right _ hpat)

theorem pair_through_strip {s g : String} {Y l : List Char}
    (hs : s.data = Y ++ ("\"genesis_multiaddr\": \"" ++ g ++ "\", ").data ++ l ++ [',', ' ']) :
    ∃ d, strip_suffix s ", " = some d ∧ hasPair (d ++ " \x7d") "genesis_multiaddr" g := by
  have hs' : s.data = (Y ++ ("\"genesis_multiaddr\": \"" ++ g ++ "\", ").data) ++ l ++ [',', ' '] := hs
  have hpat : ("\"genesis_multiaddr\": \"" ++ g ++ "\", ").data
      <:+: Y ++ ("\"genesis_multiaddr\": \"" ++ g ++ "\", ").data :=
    infix_append_left Y (List.infix_refl _)
  exact strip_keeps hs' hpat

/-- C5 (amended): for EVERY deployment configuration and EVERY
genesis-address string — the empty string included — both the faucet
builder and the RPC-client builder succeed, and each produced document
carries the rendered `genesis_multiaddr` pair. (The claim's failure on
empty input does not exist in the source; see the counterexample.) -/
theorem claim_C5 (self : DeployCmd) (g : String) :
    ∃ df dr, build_faucet_extra_vars_doc self g = Except.ok df
      ∧ hasPair df "genesis_multiaddr" g
      ∧ build_safenode_rpc_client_extra_vars_doc self g = Except.ok dr
      ∧ hasPair dr "genesis_multiaddr" g := by
  obtain ⟨name, nc, vc, rpc, ls, variant, ev, prov⟩ := self
  cases variant with
  | main f =>
    obtain ⟨df, hdf, hpf⟩ := pair_through_strip
      (s := add_value (add_value (add_value (add_value "\x7b " "provider" prov)
              "testnet_name" name) "genesis_multiaddr" g) "faucet_archive_url"
              "https://sn-faucet.s3.eu-west-2.amazonaws.com/faucet-latest-x86_64-unknown-linux-musl.tar.gz")
      (g := g)
      (Y := (add_value (add_value "\x7b " "provider" prov) "testnet_name" name).data)
      (l := ("\"faucet_archive_url\": \"https://sn-faucet.s3.eu-west-2.amazonaws.com/faucet-latest-x86_64-unknown-linux-musl.tar.gz\"" : String).data)
      (by simp only [add_value, String.data_append, List.append_assoc]; rfl)
    obtain ⟨dr, hdr, hpr⟩ := pair_through_strip
      (s := add_value (add_value (add_value (add_value "\x7b " "provider" prov)
              "testnet_name" name) "genesis_multiaddr" g) "safenode_rpc_client_archive_url"
              "https://sn-node-rpc-client.s3.eu-west-2.amazonaws.com/safenode_rpc_client-latest-x86_64-unknown-linux-musl.tar.gz")
      (g := g)
      (Y := (add_value (add_value "\x7b " "provider" prov) "testnet_name" name).data)
      (l := ("\"safenode_rpc_client_archive_url\": \"https://sn-node-rpc-client.s3.eu-west-2.amazonaws.com/safenode_rpc_client-latest-x86_64-unknown-linux-musl.tar.gz\"" : String).data)
      (by simp only [add_value, String.data_append, List.append_assoc]; rfl)
    refine ⟨df ++ " \x7d", dr ++ " \x7d", ?_, hpf, ?_, hpr⟩
    · show (match strip_suffix _ ", " with
            | some stripped => Except.ok (stripped ++ " \x7d")
            | none => Except.error (Failure.panic "called Option.unwrap on a None value")) = _
      rw [hdf]
    · show (match strip_suffix _ ", " with
            | some stripped => Except.ok (stripped ++ " \x7d")
            | none => Except.error (Failure.panic "called Option.unwrap on a None value")) = _
      rw [hdr]
  | branch o b f =>
    obtain ⟨df, hdf, hpf⟩ := pair_through_strip
      (s := add_value (add_value (add_value (add_value (add_value (add_value "\x7b "
              "provider" prov) "testnet_name" name) "genesis_multiaddr" g) "branch" b)
              "org" o) "faucet_archive_url"
              ("https://sn-node.s3.eu-west-2.amazonaws.com/" ++ o ++ "/" ++ b
                ++ "/faucet-" ++ name ++ "-x86_64-unknown-linux-musl.tar.gz"))
      (g := g)
      (Y := (add_value (add_value "\x7b " "provider" prov) "testnet_name" name).data)
      (l := (("\"branch\": \"" ++ b ++ "\", \"org\": \"" ++ o
              ++ "\", \"faucet_archive_url\": \"https://sn-node.s3.eu-west-2.amazonaws.com/"
              ++ o ++ "/" ++ b ++ "/faucet-" ++ name
              ++ "-x86_64-unknown-linux-musl.tar.gz\"" : String)).data)
      (by simp only [add_value, String.data_append, List.append_assoc]; rfl)
    obtain ⟨dr, hdr, hpr⟩ := pair_through_strip
      (s := add_value (add_value (add_value (add_value (add_value (add_value "\x7b "
              "provider" prov) "testnet_name" name) "genesis_multiaddr" g) "branch" b)
              "org" o) "safenode_rpc_client_archive_url"
              ("https://sn-node.s3.eu-west-2.amazonaws.com/" ++ o ++ "/" ++ b
                ++ "/safenode_rpc_client-" ++ name ++ "-x86_64-unknown-linux-musl.tar.gz"))
      (g := g)
      (Y := (add_value (add_value "\x7b " "provider" prov) "testnet_name" name).data)
      (l := (("\"branch\": \"" ++ b ++ "\", \"org\": \"" ++ o
              ++ "\", \"safenode_rpc_client_archive_url\": \"https://sn-node.s3.eu-west-2.amazonaws.com/"
              ++ o ++ "/" ++ b ++ "/safenode_rpc_client-" ++ name
              ++ "-x86_64-unknown-linux-musl.tar.gz\"" : String)).data)
      (by simp only [add_value, String.data_append, List.append_assoc]; rfl)
    refine ⟨df ++ " \x7d", dr ++ " \x7d", ?_, hpf, ?_, hpr⟩
    · show (match strip_suffix _ ", " with
            | some stripped => Except.ok (stripped ++ " \x7d")
            | none => Except.error (Failure.panic "called Option.unwrap on a None value")) = _
      rw [hdf]
    · show (match strip_suffix _ ", " with
            | some stripped => Except.ok (stripped ++ " \x7d")
            | none => Except.error (Failure.panic "called Option.unwrap on a None value")) = _
      rw [hdr]
  | versioned v =>
    obtain ⟨df, hdf, hpf⟩ := pair_through_strip
      (s := add_value (add_value (add_value (add_value "\x7b " "provider" prov)
              "testnet_name" name) "genesis_multiaddr" g) "faucet_archive_url"
              "https://sn-faucet.s3.eu-west-2.amazonaws.com/faucet-latest-x86_64-unknown-linux-musl.tar.gz")
      (g := g)
      (Y := (add_value (add_value "\x7b " "provider" prov) "testnet_name" name).data)
      (l := ("\"faucet_archive_url\": \"https://sn-faucet.s3.eu-west-2.amazonaws.com/faucet-latest-x86_64-unknown-linux-musl.tar.gz\"" : String).data)
      (by simp only [add_value, String.data_append, List.append_assoc]; rfl)
    obtain ⟨dr, hdr, hpr⟩ := pair_through_strip
      (s := add_value (add_value (add_value (add_value "\x7b " "provider" prov)
              "testnet_name" name) "genesis_multiaddr" g) "safenode_rpc_client_archive_url"
              "https://sn-node-rpc-client.s3.eu-west-2.amazonaws.com/safenode_rpc_client-latest-x86_64-unknown-linux-musl.tar.gz")
      (g := g)
      (Y := (add_value (add_value "\x7b " "provider" prov) "testnet_name" name).data)
      (l := ("\"safenode_rpc_client_archive_url\": \"https://sn-node-rpc-client.s3.eu-west-2.amazonaws.com/safenode_rpc_client-latest-x86_64-unknown-linux-musl.tar.gz\"" : String).data)
      (by simp only [add_value, String.data_append, List.append_assoc]; rfl)
    refine ⟨df ++ " \x7d", dr ++ " \x7d", ?_, hpf, ?_, hpr⟩
    · show (match strip_suffix _ ", " with
            | some stripped => Except.ok (stripped ++ " \x7d")
            | none => Except.error (Failure.panic "called Option.unwrap on a None value")) = _
      rw [hdf]
    · show (match strip_suffix _ ", " with
            | some stripped => Except.ok (stripped ++ " \x7d")
            | none => Except.error (Failure.panic "called Option.unwrap on a None value")) = _
      rw [hdr]

/-! ### Non-occurrence machinery

A search target that avoids the document's delimiter characters cannot
straddle the boundary of an appended piece: any occurrence in `xs ++ ys`
that is in neither part must contain both the last character of `xs` and
the first character of `ys`. -/

theorem not_infix_append {α : Type} {t xs ys : List α}
    (hx : ¬ t <:+: xs) (hy : ¬ t <:+: ys)
    (hb : ∀ a b, xs.getLast? = some a → ys.head? = some b → a ∉ t ∨ b ∉ t) :
    ¬ t <:+: xs ++ ys := by
  rintro ⟨u, v, huv⟩
  rw [List.append_assoc] at huv
  rcases List.append_eq_append_iff.mp huv with ⟨w, hw1, hw2⟩ | ⟨w, hw1, hw2⟩
  · rcases List.append_eq_append_iff.mp hw2 with ⟨z, hz1, hz2⟩ | ⟨z, hz1, hz2⟩
    · exact hx ⟨u, z, by rw [List.append_assoc, ← hz1, ← hw1]⟩
    · rcases eq_or_ne w [] with hwn | hwn
      · subst hwn
        rw [List.nil_append] at hz1
        exact hy ⟨[], v, by rw [List.nil_append, hz1, ← hz2]⟩
      · rcases eq_or_ne z [] with hzn | hzn
        · subst hzn
          rw [List.append_nil] at hz1
          exact hx ⟨u, [], by rw [List.append_nil, hz1, ← hw1]⟩
        · obtain ⟨a, ha⟩ := Option.isSome_iff_exists.mp (List.getLast?_isSome.mpr hwn)
          obtain ⟨b, z', rfl⟩ : ∃ b z', z = b :: z' := by
            cases z with
            | nil => exact absurd rfl hzn
            | cons b z' => exact ⟨b, z', rfl⟩
          have hxa : xs.getLast? = some a := by
            rw [hw1, List.getLast?_append, ha]; rfl
          have hyb : ys.head? = some b := by
            rw [hz2]; rfl
          have hat : a ∈ t := by
            rw [hz1]
            exact List.mem_append_left _ (List.mem_of_getLast?_eq_some ha)
          have hbt : b ∈ t := by
            rw [hz1]
            exact List.mem_append_right _ (List.mem_cons_self b z')
          rcases hb a b hxa hyb with h | h
          · exact h hat
          · exact h hbt
  · exact hy ⟨w, v, by rw [List.append_assoc, ← hw2]⟩

theorem not_infix_of_avoid {α : Type} {t l : List α} (ht : t ≠ [])
    (h : ∀ c ∈ l, c ∉ t) : ¬ t <:+: l := by
  intro hinf
  match t, ht with
  | c :: t', _ =>
    exact h c (hinf.subset (List.mem_cons_self c t')) (List.mem_cons_self c t')

theorem ni_append_last {t : List Char} {s u : String} {a : Char}
    (hs : ¬ t <:+: s.data) (hu : ¬ t <:+: u.data)
    (hla : s.data.getLast? = some a) (hat : a ∉ t) :
    ¬ t <:+: (s ++ u).data := by
  rw [String.data_append]
  refine not_infix_append hs hu (fun a' b ha' _ => Or.inl ?_)
  rw [hla] at ha'
  injection ha' with h
  rw [← h]
  exact hat

theorem ni_append_head {t : List Char} {s u : String} {b : Char}
    (hs : ¬ t <:+: s.data) (hu : ¬ t <:+: u.data)
    (hhd : u.data.head? = some b) (hbt : b ∉ t) :
    ¬ t <:+: (s ++ u).data := by
  rw [String.data_append]
  refine not_infix_append hs hu (fun a' b' _ hb' => Or.inr ?_)
  rw [hhd] at hb'
  injection hb' with h
  rw [← h]
  exact hbt

theorem last_of_append_some {s u : String} {c : Char}
    (hu : u.data.getLast? = some c) : (s ++ u).data.getLast? = some c := by
  rw [String.data_append, List.getLast?_append, hu]; rfl

theorem head_of_append_some {s u : String} {c : Char}
    (hs : s.data.head? = some c) : (s ++ u).data.head? = some c := by
  rw [String.data_append, List.head?_append, hs]; rfl

/-- The delimiter characters of the hand-assembled documents. A good
search target is nonempty and avoids them all (as well as digits, which
make up the rendered `node_instance_count` value). -/
abbrev GoodTarget (t : List Char) : Prop :=
  t ≠ [] ∧ ∀ c ∈ t,
    c ≠ '"' ∧ c ≠ ',' ∧ c ≠ ' ' ∧ c ≠ ':' ∧ c ≠ '=' ∧ c ≠ '/' ∧ c ≠ '-'
      ∧ c ≠ '[' ∧ c ≠ '\x7b' ∧ c ≠ '\x7d' ∧ ¬ c.isDigit

theorem GoodTarget.not_mem_quote {t : List Char} (h : GoodTarget t) : '"' ∉ t :=
  fun hm => ((h.2 _ hm).1) rfl

theorem GoodTarget.not_mem_space {t : List Char} (h : GoodTarget t) : ' ' ∉ t :=
  fun hm => ((h.2 _ hm).2.2.1) rfl

theorem GoodTarget.not_mem_comma {t : List Char} (h : GoodTarget t) : ',' ∉ t :=
  fun hm => ((h.2 _ hm).2.1) rfl

theorem GoodTarget.not_mem_eq {t : List Char} (h : GoodTarget t) : '=' ∉ t :=
  fun hm => ((h.2 _ hm).2.2.2.2.1) rfl

theorem GoodTarget.not_mem_slash {t : List Char} (h : GoodTarget t) : '/' ∉ t :=
  fun hm => ((h.2 _ hm).2.2.2.2.2.1) rfl

theorem GoodTarget.not_mem_dash {t : List Char} (h : GoodTarget t) : '-' ∉ t :=
  fun hm => ((h.2 _ hm).2.2.2.2.2.2.1) rfl

theorem GoodTarget.not_mem_bracket {t : List Char} (h : GoodTarget t) : '[' ∉ t :=
  fun hm => ((h.2 _ hm).2.2.2.2.2.2.2.1) rfl

theorem GoodTarget.not_mem_brace {t : List Char} (h : GoodTarget t) : '\x7d' ∉ t :=
  fun hm => ((h.2 _ hm).2.2.2.2.2.2.2.2.2.1) rfl

/-- Cleanliness invariant threaded through a document builder: the target
occurs nowhere in the string built so far, and the last character (the
next append boundary) is not a character of the target. -/
def Clean (t : List Char) (s : String) : Prop :=
  (¬ t <:+: s.data) ∧ ∀ a, s.data.getLast? = some a → a ∉ t

theorem Clean.ni {t : List Char} {s : String} (h : Clean t s) : ¬ t <:+: s.data := h.1

/-- A target avoiding all delimiters does not occur in a string made of
delimiter characters only. -/
theorem GoodTarget.avoid_lit {t : List Char} (h : GoodTarget t) {l : List Char}
    (hl : ∀ c ∈ l, c = '"' ∨ c = ',' ∨ c = ' ' ∨ c = ':' ∨ c = '=' ∨ c = '/'
      ∨ c = '-' ∨ c = '[' ∨ c = '\x7b' ∨ c = '\x7d' ∨ c.isDigit = true) :
    ¬ t <:+: l := by
  refine not_infix_of_avoid h.1 ?_
  intro c hc hm
  obtain ⟨h1, h2, h3, h4, h5, h6, h7, h8, h9, h10, h11⟩ := h.2 c hm
  rcases hl c hc with hx | hx | hx | hx | hx | hx | hx | hx | hx | hx | hx
  exacts [h1 hx, h2 hx, h3 hx, h4 hx, h5 hx, h6 hx, h7 hx, h8 hx, h9 hx, h10 hx, h11 hx]

/-- Appending one `add_value` fragment preserves cleanliness, provided the
target avoids the delimiters and occurs in neither the key nor the value. -/
theorem clean_add_value {t : List Char} {s k v : String}
    (hT : GoodTarget t) (hk : ¬ t <:+: k.data) (hv : ¬ t <:+: v.data)
    (hs : Clean t s) : Clean t (add_value s k v) := by
  have hq := hT.not_mem_quote
  have hu1 : ¬ t <:+: ("\"" : String).data := hT.avoid_lit (by decide)
  have hu2 : ¬ t <:+: ("\"" ++ k).data := by
    refine ni_append_last hu1 hk ?_ hq
    rfl
  have hmid : ¬ t <:+: ("\": \"" : String).data := hT.avoid_lit (by decide)
  have hu3 : ¬ t <:+: ("\"" ++ k ++ "\": \"").data :=
    ni_append_head hu2 hmid (b := '"') rfl hq
  have hu4 : ¬ t <:+: ("\"" ++ k ++ "\": \"" ++ v).data := by
    refine ni_append_last hu3 hv ?_ hq
    exact last_of_append_some (u := "\": \"") rfl
  have hend : ¬ t <:+: ("\", " : String).data := hT.avoid_lit (by decide)
  have hu5 : ¬ t <:+: ("\"" ++ k ++ "\": \"" ++ v ++ "\", ").data :=
    ni_append_head hu4 hend (b := '"') rfl hq
  constructor
  · show ¬ t <:+: (s ++ ("\"" ++ k ++ "\": \"" ++ v ++ "\", ")).data
    refine ni_append_head hs.1 hu5 ?_ hq
    exact head_of_append_some (s := "\"" ++ k ++ "\": \"" ++ v) (head_of_append_some
      (s := "\"" ++ k ++ "\": \"") (head_of_append_some (s := "\"" ++ k)
        (head_of_append_some (s := "\"") rfl)))
  · intro a ha
    have : (add_value s k v).data.getLast? = some ' ' := by
      show (s ++ ("\"" ++ k ++ "\": \"" ++ v ++ "\", ")).data.getLast? = some ' '
      exact last_of_append_some (last_of_append_some (u := "\", ") rfl)
    rw [this] at ha
    injection ha with h
    rw [← h]
    exact hT.not_mem_space

theorem not_infix_nil {t : List Char} (ht : t ≠ []) : ¬ t <:+: ([] : List Char) := by
  rintro ⟨u, v, huv⟩
  rcases List.append_eq_nil.mp huv with ⟨h1, _⟩
  rcases List.append_eq_nil.mp h1 with ⟨_, h2⟩
  exact ht h2

theorem digitChar_isDigit {m : Nat} (h : m < 10) : (Nat.digitChar m).isDigit = true := by
  interval_cases m <;> decide

theorem toDigitsCore_digits :
    ∀ (fuel n : Nat) (acc : List Char), (∀ c ∈ acc, c.isDigit = true) →
      ∀ c ∈ Nat.toDigitsCore 10 fuel n acc, c.isDigit = true := by
  intro fuel
  induction fuel with
  | zero => intro n acc hacc c hc; exact hacc c hc
  | succ f ih =>
    intro n acc hacc c hc
    rw [Nat.toDigitsCore] at hc
    have hcons : ∀ c ∈ Nat.digitChar (n % 10) :: acc, c.isDigit = true := by
      intro c' hc'
      rcases List.mem_cons.mp hc' with h' | h'
      · rw [h']; exact digitChar_isDigit (Nat.mod_lt _ (by decide))
      · exact hacc c' h'
    split at hc
    · exact hcons c hc
    · exact ih (n / 10) _ hcons c hc

theorem repr_digits (n : Nat) : ∀ c ∈ (Nat.repr n).data, c.isDigit = true := by
  intro c hc
  exact toDigitsCore_digits (n + 1) n [] (by intro c' hc'; cases hc') c hc

theorem ni_repr {t : List Char} (hT : GoodTarget t) (n : Nat) :
    ¬ t <:+: (Nat.repr n).data :=
  not_infix_of_avoid hT.1
    (fun c hc hm => ((hT.2 c hm).2.2.2.2.2.2.2.2.2.2) (repr_digits n c hc))

/-- The target occurs in none of the fixed key names and URL fragments
that `build_node_extra_vars_doc` can emit. -/
structure NodeLitsClean (t : List Char) : Prop where
  k_provider : ¬ t <:+: ("provider" : String).data
  k_testnet_name : ¬ t <:+: ("testnet_name" : String).data
  k_node_instance_count : ¬ t <:+: ("node_instance_count" : String).data
  k_public_rpc : ¬ t <:+: ("public_rpc" : String).data
  k_true : ¬ t <:+: ("true" : String).data
  k_version : ¬ t <:+: ("version" : String).data
  k_branch : ¬ t <:+: ("branch" : String).data
  k_org : ¬ t <:+: ("org" : String).data
  k_manager : ¬ t <:+: ("node_manager_archive_url" : String).data
  k_daemon : ¬ t <:+: ("node_manager_daemon_archive_url" : String).data
  k_env : ¬ t <:+: ("env_variables" : String).data
  k_stack : ¬ t <:+: ("logstash_stack_name" : String).data
  lit_hosts : ¬ t <:+: ("\"logstash_hosts\": [" : String).data
  url_main_pre : ¬ t <:+: ("https://sn-node.s3.eu-west-2.amazonaws.com/maidsafe/main/safenode-" : String).data
  url_suffix : ¬ t <:+: ("-x86_64-unknown-linux-musl.tar.gz" : String).data
  url_main_latest : ¬ t <:+: ("https://sn-node.s3.eu-west-2.amazonaws.com/safenode-latest-x86_64-unknown-linux-musl.tar.gz" : String).data
  url_branch_pre : ¬ t <:+: ("https://sn-node.s3.eu-west-2.amazonaws.com/" : String).data
  url_mid_node : ¬ t <:+: ("/safenode-" : String).data
  url_mid_manager : ¬ t <:+: ("/safenode-manager-" : String).data
  url_mid_daemon : ¬ t <:+: ("/safenode-manager-daemon-" : String).data
  url_manager_latest : ¬ t <:+: ("https://sn-node-manager.s3.eu-west-2.amazonaws.com/safenode-manager-latest-x86_64-unknown-linux-musl.tar.gz" : String).data
  url_daemon_latest : ¬ t <:+: ("https://sn-node-manager.s3.eu-west-2.amazonaws.com/safenode-manager-daemon-latest-x86_64-unknown-linux-musl.tar.gz" : String).data

/-- The target occurs in none of the configuration's string fields. -/
abbrev FieldsClean (t : List Char) (self : DeployCmd) : Prop :=
  (¬ t <:+: self.provider.data) ∧ (¬ t <:+: self.name.data)
    ∧ (match self.sn_codebase_type with
       | .main _ => True
       | .branch o b _ => (¬ t <:+: o.data) ∧ (¬ t <:+: b.data)
       | .versioned v => ¬ t <:+: v.data)
    ∧ (match self.env_variables with
       | some pairs => ∀ p ∈ pairs, (¬ t <:+: p.1.data) ∧ (¬ t <:+: p.2.data)
       | none => True)
    ∧ (match self.logstash_details with
       | some pr => (¬ t <:+: pr.1.data) ∧ ∀ h ∈ pr.2, ¬ t <:+: h.data
       | none => True)

/-- Branch-scoped archive URLs stay clean: the target cannot straddle the
`/` and `-` junctions. -/
theorem ni_branch_url {t : List Char} (hT : GoodTarget t) {o b nm pre mid sfx : String}
    (ho : ¬ t <:+: o.data) (hb : ¬ t <:+: b.data) (hn : ¬ t <:+: nm.data)
    (hpre : ¬ t <:+: pre.data) (hmid : ¬ t <:+: mid.data) (hsfx : ¬ t <:+: sfx.data)
    (hpre_last : pre.data.getLast? = some '/')
    (hmid_head : mid.data.head? = some '/')
    (hmid_last : mid.data.getLast? = some '-')
    (hsfx_head : sfx.data.head? = some '-') :
    ¬ t <:+: (pre ++ o ++ "/" ++ b ++ mid ++ nm ++ sfx).data := by
  have h1 : ¬ t <:+: (pre ++ o).data :=
    ni_append_last hpre ho hpre_last hT.not_mem_slash
  have h2 : ¬ t <:+: (pre ++ o ++ "/").data :=
    ni_append_head h1 (hT.avoid_lit (by decide)) (b := '/') rfl hT.not_mem_slash
  have h3 : ¬ t <:+: (pre ++ o ++ "/" ++ b).data := by
    refine ni_append_last h2 hb ?_ hT.not_mem_slash
    exact last_of_append_some (u := "/") rfl
  have h4 : ¬ t <:+: (pre ++ o ++ "/" ++ b ++ mid).data :=
    ni_append_head h3 hmid hmid_head hT.not_mem_slash
  have h5 : ¬ t <:+: (pre ++ o ++ "/" ++ b ++ mid ++ nm).data := by
    refine ni_append_last h4 hn ?_ hT.not_mem_dash
    exact last_of_append_some hmid_last
  exact ni_append_head h5 hsfx hsfx_head hT.not_mem_dash

/-- `key=value` pairs stay clean across the `=` junction. -/
theorem ni_env_pair {t : List Char} (hT : GoodTarget t) {k v : String}
    (hk : ¬ t <:+: k.data) (hv : ¬ t <:+: v.data) :
    ¬ t <:+: (k ++ "=" ++ v).data := by
  have h1 : ¬ t <:+: (k ++ "=").data :=
    ni_append_head hk (hT.avoid_lit (by decide)) (b := '=') rfl hT.not_mem_eq
  refine ni_append_last h1 hv ?_ hT.not_mem_eq
  exact last_of_append_some (u := "=") rfl

/-- Comma-joined clean strings stay clean. -/
theorem ni_join_with {t : List Char} (hT : GoodTarget t) :
    ∀ strs : List String, (∀ s ∈ strs, ¬ t <:+: s.data) →
      ¬ t <:+: (join_with "," strs).data := by
  intro strs
  induction strs with
  | nil => intro _; exact not_infix_nil hT.1
  | cons x rest ih =>
    intro hall
    cases rest with
    | nil => exact hall x (List.mem_cons_self x [])
    | cons y rest' =>
      show ¬ t <:+: (x ++ "," ++ join_with "," (y :: rest')).data
      have hx := hall x (List.mem_cons_self x _)
      have hrest := ih (fun s hs => hall s (List.mem_cons_of_mem x hs))
      have h1 : ¬ t <:+: (x ++ ",").data :=
        ni_append_head hx (hT.avoid_lit (by decide)) (b := ',') rfl hT.not_mem_comma
      refine ni_append_last h1 hrest ?_ hT.not_mem_comma
      exact last_of_append_some (u := ",") rfl

/-- One quoted logstash host fragment preserves cleanliness. -/
theorem clean_quoted_host {t : List Char} (hT : GoodTarget t) {s h : String}
    (hh : ¬ t <:+: h.data) (hs : Clean t s) :
    Clean t (s ++ ("\"" ++ h ++ "\", ")) := by
  have hq := hT.not_mem_quote
  have hu1 : ¬ t <:+: ("\"" : String).data := hT.avoid_lit (by decide)
  have hu2 : ¬ t <:+: ("\"" ++ h).data := ni_append_last hu1 hh rfl hq
  have hend : ¬ t <:+: ("\", " : String).data := hT.avoid_lit (by decide)
  have hu3 : ¬ t <:+: ("\"" ++ h ++ "\", ").data :=
    ni_append_head hu2 hend (b := '"') rfl hq
  constructor
  · refine ni_append_head hs.1 hu3 ?_ hq
    exact head_of_append_some (s := "\"" ++ h) (head_of_append_some (s := "\"") rfl)
  · intro a ha
    have hla : (s ++ ("\"" ++ h ++ "\", ")).data.getLast? = some ' ' :=
      last_of_append_some (last_of_append_some (u := "\", ") rfl)
    rw [hla] at ha
    injection ha with h'
    rw [← h']
    exact hT.not_mem_space

/-- The logstash host fold preserves cleanliness. -/
theorem clean_hosts_fold {t : List Char} (hT : GoodTarget t) :
    ∀ (hosts : List String), (∀ h ∈ hosts, ¬ t <:+: h.data) →
      ∀ {acc : String}, Clean t acc →
        Clean t (hosts.foldl (fun acc host => acc ++ ("\"" ++ host ++ "\", ")) acc) := by
  intro hosts
  induction hosts with
  | nil => intro _ acc hacc; exact hacc
  | cons h rest ih =>
    intro hall acc hacc
    exact ih (fun x hx => hall x (List.mem_cons_of_mem h hx))
      (clean_quoted_host hT (hall h (List.mem_cons_self h rest)) hacc)

/-- Conditionally appended pair preserves cleanliness. -/
theorem clean_ite_add {t : List Char} (hT : GoodTarget t) {c : Prop} [Decidable c]
    {s k v : String} (hk : ¬ t <:+: k.data) (hv : ¬ t <:+: v.data) (hs : Clean t s) :
    Clean t (if c then add_value s k v else s) := by
  by_cases h : c
  · rw [if_pos h]; exact clean_add_value hT hk hv hs
  · rw [if_neg h]; exact hs

theorem clean_brace_space {t : List Char} (hT : GoodTarget t) : Clean t "\x7b " := by
  refine ⟨hT.avoid_lit (by decide), ?_⟩
  intro a ha
  injection ha with h'
  rw [← h']
  exact hT.not_mem_space

theorem clean_base {t : List Char} {self : DeployCmd} {gm : Option String}
    {nic : Option Nat} {s : String}
    (hT : GoodTarget t) (hL : NodeLitsClean t) (hF : FieldsClean t self)
    (hgm : ∀ g, gm = some g →
      (¬ t <:+: ("genesis_multiaddr" : String).data) ∧ ¬ t <:+: g.data)
    (hok : node_vars_base self gm nic = Except.ok s) :
    Clean t s := by
  obtain ⟨hprov, hname, -, -, -⟩ := hF
  have h2 : Clean t (add_value (add_value "\x7b " "provider" self.provider)
      "testnet_name" self.name) :=
    clean_add_value hT hL.k_testnet_name hname
      (clean_add_value hT hL.k_provider hprov (clean_brace_space hT))
  cases gm with
  | none =>
    simp only [node_vars_base, Option.isSome_none, Bool.false_eq_true, if_false,
      Except.ok.injEq] at hok
    rw [← hok]
    exact clean_ite_add hT hL.k_public_rpc hL.k_true
      (clean_ite_add hT hL.k_node_instance_count (ni_repr hT _) h2)
  | some g =>
    simp only [node_vars_base, Option.isSome_some, if_true, Except.ok.injEq] at hok
    rw [← hok]
    exact clean_ite_add hT hL.k_public_rpc hL.k_true
      (clean_ite_add hT hL.k_node_instance_count (ni_repr hT _)
        (clean_add_value hT (hgm g rfl).1 (hgm g rfl).2 h2))

theorem clean_artifact {t : List Char} {self : DeployCmd} {s : String}
    (hT : GoodTarget t) (hL : NodeLitsClean t) (hF : FieldsClean t self)
    (hart : match self.sn_codebase_type with
            | .versioned _ => True
            | _ => ¬ t <:+: ("node_archive_url" : String).data)
    (hs : Clean t s) : Clean t (node_vars_artifact self s) := by
  obtain ⟨-, hname, hvar, -, -⟩ := hF
  rcases hv : self.sn_codebase_type with f | ⟨o, b, f⟩ | v
  · rw [hv] at hart hvar
    simp only [node_vars_artifact, hv]
    by_cases hf : f.isSome
    · rw [if_pos hf]
      refine clean_add_value hT hart ?_ hs
      have h1 : ¬ t <:+:
          (("https://sn-node.s3.eu-west-2.amazonaws.com/maidsafe/main/safenode-" : String)
            ++ self.name).data :=
        ni_append_last hL.url_main_pre hname rfl hT.not_mem_dash
      exact ni_append_head h1 hL.url_suffix (b := '-') rfl hT.not_mem_dash
    · rw [if_neg hf]
      exact clean_add_value hT hart hL.url_main_latest hs
  · rw [hv] at hart hvar
    simp only [node_vars_artifact, hv]
    exact clean_add_value hT hart
      (ni_branch_url hT hvar.1 hvar.2 hname hL.url_branch_pre hL.url_mid_node
        hL.url_suffix rfl rfl rfl rfl) hs
  · rw [hv] at hvar
    simp only [node_vars_artifact, hv]
    exact clean_add_value hT hL.k_version hvar hs

theorem clean_manager {t : List Char} {self : DeployCmd} {s : String}
    (hT : GoodTarget t) (hL : NodeLitsClean t) (hF : FieldsClean t self)
    (hs : Clean t s) : Clean t (node_vars_manager self s) := by
  obtain ⟨-, hname, hvar, -, -⟩ := hF
  rcases hv : self.sn_codebase_type with f | ⟨o, b, f⟩ | v
  · simp only [node_vars_manager, hv]
    exact clean_add_value hT hL.k_manager hL.url_manager_latest hs
  · rw [hv] at hvar
    simp only [node_vars_manager, hv]
    exact clean_add_value hT hL.k_manager
      (ni_branch_url hT hvar.1 hvar.2 hname hL.url_branch_pre hL.url_mid_manager
        hL.url_suffix rfl rfl rfl rfl)
      (clean_add_value hT hL.k_org hvar.1
        (clean_add_value hT hL.k_branch hvar.2 hs))
  · simp only [node_vars_manager, hv]
    exact clean_add_value hT hL.k_manager hL.url_manager_latest hs

theorem clean_daemon {t : List Char} {self : DeployCmd} {s : String}
    (hT : GoodTarget t) (hL : NodeLitsClean t) (hF : FieldsClean t self)
    (hs : Clean t s) : Clean t (node_vars_daemon self s) := by
  obtain ⟨-, hname, hvar, -, -⟩ := hF
  rcases hv : self.sn_codebase_type with f | ⟨o, b, f⟩ | v
  · simp only [node_vars_daemon, hv]
    exact clean_add_value hT hL.k_manager hL.url_daemon_latest hs
  · rw [hv] at hvar
    simp only [node_vars_daemon, hv]
    exact clean_add_value hT hL.k_daemon
      (ni_branch_url hT hvar.1 hvar.2 hname hL.url_branch_pre hL.url_mid_daemon
        hL.url_suffix rfl rfl rfl rfl)
      (clean_add_value hT hL.k_org hvar.1
        (clean_add_value hT hL.k_branch hvar.2 hs))
  · simp only [node_vars_daemon, hv]
    exact clean_add_value hT hL.k_manager hL.url_daemon_latest hs

theorem clean_env {t : List Char} {self : DeployCmd} {s : String}
    (hT : GoodTarget t) (hL : NodeLitsClean t) (hF : FieldsClean t self)
    (hs : Clean t s) : Clean t (node_vars_env self s) := by
  obtain ⟨-, -, -, henv, -⟩ := hF
  rcases he : self.env_variables with - | pairs
  · simp only [node_vars_env, he]
    exact hs
  · rw [he] at henv
    simp only [node_vars_env, he]
    refine clean_add_value hT hL.k_env ?_ hs
    refine ni_join_with hT _ ?_
    intro x hx
    rcases List.mem_map.mp hx with ⟨p, hp, rfl⟩
    exact ni_env_pair hT (henv p hp).1 (henv p hp).2

theorem ni_logstash_close {t : List Char} {self : DeployCmd} {s doc : String}
    (hT : GoodTarget t) (hL : NodeLitsClean t) (hF : FieldsClean t self)
    (hs : Clean t s)
    (hok : node_vars_logstash_close self s = Except.ok doc) :
    ¬ t <:+: doc.data := by
  obtain ⟨-, -, -, -, hls⟩ := hF
  rcases hl : self.logstash_details with - | ⟨st, hosts⟩
  · simp only [node_vars_logstash_close, hl, Except.ok.injEq] at hok
    rw [← hok]
    exact ni_append_head hs.1 (hT.avoid_lit (by decide)) (b := '\x7d') rfl
      hT.not_mem_brace
  · rw [hl] at hls
    simp only [node_vars_logstash_close, hl] at hok
    have h1 : Clean t (add_value s "logstash_stack_name" st) :=
      clean_add_value hT hL.k_stack hls.1 hs
    have h2 : Clean t (add_value s "logstash_stack_name" st ++ "\"logstash_hosts\": [") := by
      constructor
      · exact ni_append_head h1.1 hL.lit_hosts (b := '"') rfl hT.not_mem_quote
      · intro a ha
        rw [last_of_append_some (u := "\"logstash_hosts\": [") rfl] at ha
        injection ha with h'
        rw [← h']
        exact hT.not_mem_bracket
    have h3 : Clean t (hosts.foldl (fun acc host => acc ++ ("\"" ++ host ++ "\", "))
        (add_value s "logstash_stack_name" st ++ "\"logstash_hosts\": [")) :=
      clean_hosts_fold hT hosts hls.2 h2
    split at hok
    · rw [Except.ok.injEq] at hok
      rw [← hok]
      exact ni_append_head h3.1 (hT.avoid_lit (by decide)) (b := '\x7d') rfl
        hT.not_mem_brace
    · exact absurd hok (by simp)

/-- Master lemma: a good target that occurs in no configuration field, no
emitted key literal and no URL fragment does not occur in any node-stage
document the builder returns. -/
theorem node_doc_ni {t : List Char} {self : DeployCmd} {gm : Option String}
    {nic : Option Nat} {doc : String}
    (hT : GoodTarget t) (hL : NodeLitsClean t) (hF : FieldsClean t self)
    (hgm : ∀ g, gm = some g →
      (¬ t <:+: ("genesis_multiaddr" : String).data) ∧ ¬ t <:+: g.data)
    (hart : match self.sn_codebase_type with
            | .versioned _ => True
            | _ => ¬ t <:+: ("node_archive_url" : String).data)
    (hok : build_node_extra_vars_doc self gm nic = Except.ok doc) :
    ¬ t <:+: doc.data := by
  unfold build_node_extra_vars_doc at hok
  split at hok
  · exact absurd hok (by simp)
  · next s hbase =>
    exact ni_logstash_close hT hL hF
      (clean_env hT hL hF
        (clean_daemon hT hL hF
          (clean_manager hT hL hF
            (clean_artifact hT hL hF hart
              (clean_base hT hL hF hgm hbase)))))
      hok

/-! ### Occurrence preservation through the builder sections -/

theorem containsSub_append_right {s u pat : String} (h : containsSub s pat) :
    containsSub (s ++ u) pat := by
  show pat.data <:+: (s ++ u).data
  rw [String.data_append]
  exact infix_append_right _ h

theorem containsSub_add_value {s k v pat : String} (h : containsSub s pat) :
    containsSub (add_value s k v) pat :=
  containsSub_append_right h

theorem hasPair_add_value (s k v : String) : hasPair (add_value s k v) k v := by
  show (("\"" ++ k ++ "\": \"" ++ v ++ "\", ") : String).data
    <:+: (s ++ ("\"" ++ k ++ "\": \"" ++ v ++ "\", ")).data
  rw [String.data_append]
  exact infix_append_left _ (List.infix_refl _)

theorem containsSub_ite_add {s k v pat : String} {c : Prop} [Decidable c]
    (h : containsSub s pat) : containsSub (if c then add_value s k v else s) pat := by
  by_cases hc : c
  · rw [if_pos hc]; exact containsSub_add_value h
  · rw [if_neg hc]; exact h

theorem containsSub_artifact {self : DeployCmd} {s pat : String}
    (h : containsSub s pat) : containsSub (node_vars_artifact self s) pat := by
  rcases hv : self.sn_codebase_type with f | ⟨o, b, f⟩ | v <;>
    simp only [node_vars_artifact, hv] <;>
    exact containsSub_add_value h

theorem containsSub_manager {self : DeployCmd} {s pat : String}
    (h : containsSub s pat) : containsSub (node_vars_manager self s) pat := by
  rcases hv : self.sn_codebase_type with f | ⟨o, b, f⟩ | v
  · simp only [node_vars_manager, hv]
    exact containsSub_add_value h
  · simp only [node_vars_manager, hv]
    exact containsSub_add_value (containsSub_add_value (containsSub_add_value h))
  · simp only [node_vars_manager, hv]
    exact containsSub_add_value h

theorem containsSub_daemon {self : DeployCmd} {s pat : String}
    (h : containsSub s pat) : containsSub (node_vars_daemon self s) pat := by
  rcases hv : self.sn_codebase_type with f | ⟨o, b, f⟩ | v
  · simp only [node_vars_daemon, hv]
    exact containsSub_add_value h
  · simp only [node_vars_daemon, hv]
    exact containsSub_add_value (containsSub_add_value (containsSub_add_value h))
  · simp only [node_vars_daemon, hv]
    exact containsSub_add_value h

theorem containsSub_env {self : DeployCmd} {s pat : String}
    (h : containsSub s pat) : containsSub (node_vars_env self s) pat := by
  rcases he : self.env_variables with - | pairs
  · simp only [node_vars_env, he]; exact h
  · simp only [node_vars_env, he]; exact containsSub_add_value h

theorem containsSub_foldl {pat : String} :
    ∀ (hosts : List String) {acc : String}, containsSub acc pat →
      containsSub (hosts.foldl (fun acc host => acc ++ ("\"" ++ host ++ "\", ")) acc) pat := by
  intro hosts
  induction hosts with
  | nil => intro acc h; exact h
  | cons x rest ih => intro acc h; exact ih (containsSub_append_right h)

theorem containsSub_close {self : DeployCmd} {s doc pat : String}
    (h : containsSub s pat)
    (hok : node_vars_logstash_close self s = Except.ok doc) :
    containsSub doc pat := by
  rcases hl : self.logstash_details with - | ⟨st, hosts⟩
  · simp only [node_vars_logstash_close, hl, Except.ok.injEq] at hok
    rw [← hok]
    exact containsSub_append_right h
  · simp only [node_vars_logstash_close, hl] at hok
    split at hok
    · rw [Except.ok.injEq] at hok
      rw [← hok]
      exact containsSub_append_right
        (containsSub_foldl hosts (containsSub_append_right (containsSub_add_value h)))
    · exact absurd hok (by simp)

/-! ### C8: Versioned("1.2.3") node-stage document -/

/-- C8 (amended): for every configuration whose variant is
Versioned("1.2.3") — provided no configuration string field and no
supplied genesis address itself contains the text `node_archive_url` —
the node-stage document carries the pair `"version": "1.2.3"` and no
`node_archive_url` key. (Without that proviso a field can inject the key
textually; see the counterexample.) -/
theorem claim_C8 {self : DeployCmd} {gm : Option String} {nic : Option Nat} {doc : String}
    (hvar : self.sn_codebase_type = SnCodebaseType.versioned "1.2.3")
    (hF : FieldsClean ("node_archive_url" : String).data self)
    (hgm : ∀ g, gm = some g → ¬ ("node_archive_url" : String).data <:+: g.data)
    (hok : build_node_extra_vars_doc self gm nic = Except.ok doc) :
    hasPair doc "version" "1.2.3" ∧ ¬ hasKey doc "node_archive_url" := by
  constructor
  · unfold build_node_extra_vars_doc at hok
    split at hok
    · exact absurd hok (by simp)
    · next s hbase =>
      refine containsSub_close (containsSub_env (containsSub_daemon
        (containsSub_manager ?_))) hok
      show containsSub (node_vars_artifact self s) _
      simp only [node_vars_artifact, hvar]
      exact hasPair_add_value s "version" "1.2.3"
  · intro hk
    have hni : ¬ ("node_archive_url" : String).data <:+: doc.data := by
      refine node_doc_ni (by decide) ?_ hF
        (fun g hg => ⟨by decide, hgm g hg⟩) ?_ hok
      · constructor <;> decide
      · rw [hvar]
        trivial
    exact hni (List.IsInfix.trans (by decide) hk)

/-- Configuration for the C8 witness: Versioned("1.2.3"), plain fields. -/
abbrev c8w_cfg : DeployCmd := { c2_cfg with sn_codebase_type := .versioned "1.2.3" }

/-- The node-stage document the source produces for `c8w_cfg`. -/
def c8w_doc : String :=
  "\x7b \"provider\": \"digital-ocean\", \"testnet_name\": \"beta\", \"version\": \"1.2.3\", \"node_manager_archive_url\": \"https://sn-node-manager.s3.eu-west-2.amazonaws.com/safenode-manager-latest-x86_64-unknown-linux-musl.tar.gz\", \"node_manager_archive_url\": \"https://sn-node-manager.s3.eu-west-2.amazonaws.com/safenode-manager-daemon-latest-x86_64-unknown-linux-musl.tar.gz\", \x7d"

theorem claim_C8_witness :
    build_node_extra_vars_doc c8w_cfg none none = Except.ok c8w_doc
      ∧ hasPair c8w_doc "version" "1.2.3"
      ∧ ¬ hasKey c8w_doc "node_archive_url" :=
  ⟨rfl, @claim_C8 c8w_cfg none none c8w_doc rfl (by decide) (fun g hg => nomatch hg) rfl⟩

/-- Configuration for the C8 counterexample: the deployment name itself
injects a `node_archive_url` pair into the rendered document. -/
abbrev c8_cex_cfg : DeployCmd :=
  { c2_cfg with sn_codebase_type := .versioned "1.2.3",
                name := "x\", \"node_archive_url\": \"u" }

/-- The node-stage document the source produces for `c8_cex_cfg`. -/
def c8_cex_doc : String :=
  "\x7b \"provider\": \"digital-ocean\", \"testnet_name\": \"x\", \"node_archive_url\": \"u\", \"version\": \"1.2.3\", \"node_manager_archive_url\": \"https://sn-node-manager.s3.eu-west-2.amazonaws.com/safenode-manager-latest-x86_64-unknown-linux-musl.tar.gz\", \"node_manager_archive_url\": \"https://sn-node-manager.s3.eu-west-2.amazonaws.com/safenode-manager-daemon-latest-x86_64-unknown-linux-musl.tar.gz\", \x7d"

/-- C8 counterexample: with variant Versioned("1.2.3") but a deployment
name containing `", "node_archive_url": "u`, the rendered document DOES
textually carry a `node_archive_url` key — the claim as stated (for every
deployment configuration with that variant) is false. -/
theorem claim_C8_cex :
    build_node_extra_vars_doc c8_cex_cfg none none = Except.ok c8_cex_doc
      ∧ hasKey c8_cex_doc "node_archive_url" :=
  ⟨rfl, by decide⟩

/-! ### C9: presence/absence of the genesis_multiaddr key -/

/-- C9 (amended): provided no configuration string field contains the text
`genesis_multiaddr`, a node-stage document built with no genesis address
carries no `genesis_multiaddr` key, and one built with address `a` carries
the rendered pair `"genesis_multiaddr": "a"`. (Without the proviso a
field can inject the key textually; see the counterexample.) -/
theorem claim_C9 {self : DeployCmd} {nic : Option Nat}
    (hF : FieldsClean ("genesis_multiaddr" : String).data self) :
    (∀ doc, build_node_extra_vars_doc self none nic = Except.ok doc →
      ¬ hasKey doc "genesis_multiaddr")
    ∧ (∀ a doc, build_node_extra_vars_doc self (some a) nic = Except.ok doc →
      hasPair doc "genesis_multiaddr" a) := by
  constructor
  · intro doc hok hk
    have hni : ¬ ("genesis_multiaddr" : String).data <:+: doc.data := by
      refine node_doc_ni (by decide) ?_ hF (fun g hg => by cases hg) ?_ hok
      · constructor <;> decide
      · cases self.sn_codebase_type
        · show ¬ ("genesis_multiaddr" : String).data <:+: ("node_archive_url" : String).data
          decide
        · show ¬ ("genesis_multiaddr" : String).data <:+: ("node_archive_url" : String).data
          decide
        · trivial
    exact hni (List.IsInfix.trans (by decide) hk)
  · intro a doc hok
    unfold build_node_extra_vars_doc at hok
    split at hok
    · exact absurd hok (by simp)
    · next s hbase =>
      refine containsSub_close (containsSub_env (containsSub_daemon
        (containsSub_manager (containsSub_artifact ?_)))) hok
      have hp : hasPair (add_value (add_value (add_value "\x7b " "provider" self.provider)
          "testnet_name" self.name) "genesis_multiaddr" a) "genesis_multiaddr" a :=
        hasPair_add_value _ "genesis_multiaddr" a
      simp only [node_vars_base, Option.isSome_some, if_true, Except.ok.injEq] at hbase
      rw [← hbase]
      exact containsSub_ite_add (containsSub_ite_add hp)

/-- The node-stage document for `c2_cfg` with a concrete genesis address. -/
def c9w_doc : String :=
  "\x7b \"provider\": \"digital-ocean\", \"testnet_name\": \"beta\", \"genesis_multiaddr\": \"/ip4/10.0.0.1/tcp/1234/p2p/Qm\", \"node_archive_url\": \"https://sn-node.s3.eu-west-2.amazonaws.com/safenode-latest-x86_64-unknown-linux-musl.tar.gz\", \"node_manager_archive_url\": \"https://sn-node-manager.s3.eu-west-2.amazonaws.com/safenode-manager-latest-x86_64-unknown-linux-musl.tar.gz\", \"node_manager_archive_url\": \"https://sn-node-manager.s3.eu-west-2.amazonaws.com/safenode-manager-daemon-latest-x86_64-unknown-linux-musl.tar.gz\", \x7d"

theorem claim_C9_witness :
    ¬ hasKey c2_doc "genesis_multiaddr"
      ∧ hasPair c9w_doc "genesis_multiaddr" "/ip4/10.0.0.1/tcp/1234/p2p/Qm" :=
  ⟨(@claim_C9 c2_cfg none (by decide)).1 c2_doc rfl,
   (@claim_C9 c2_cfg none (by decide)).2 "/ip4/10.0.0.1/tcp/1234/p2p/Qm" c9w_doc rfl⟩

/-- Configuration for the C9 counterexample: the deployment name injects a
`genesis_multiaddr` pair even though none was supplied. -/
abbrev c9_cex_cfg : DeployCmd :=
  { c2_cfg with name := "x\", \"genesis_multiaddr\": \"fake" }

/-- The node-stage document the source produces for `c9_cex_cfg` with NO
genesis address. -/
def c9_cex_doc : String :=
  "\x7b \"provider\": \"digital-ocean\", \"testnet_name\": \"x\", \"genesis_multiaddr\": \"fake\", \"node_archive_url\": \"https://sn-node.s3.eu-west-2.amazonaws.com/safenode-latest-x86_64-unknown-linux-musl.tar.gz\", \"node_manager_archive_url\": \"https://sn-node-manager.s3.eu-west-2.amazonaws.com/safenode-manager-latest-x86_64-unknown-linux-musl.tar.gz\", \"node_manager_archive_url\": \"https://sn-node-manager.s3.eu-west-2.amazonaws.com/safenode-manager-daemon-latest-x86_64-unknown-linux-musl.tar.gz\", \x7d"

/-- C9 counterexample: built with genesis_multiaddr = None, the document
for `c9_cex_cfg` nevertheless carries a textual `genesis_multiaddr` key
(injected through the deployment name), so the claim as stated (for
every deployment configuration) is false. -/
theorem claim_C9_cex :
    build_node_extra_vars_doc c9_cex_cfg none none = Except.ok c9_cex_doc
      ∧ hasKey c9_cex_doc "genesis_multiaddr" :=
  ⟨rfl, by decide⟩

/-! ### The deployment pipeline -/

/-- State-collecting fallible computation: the state (printed lines for
the main pipeline, collaborator calls for the sub-pipeline) survives a
failure; a `Failure` aborts the rest of the computation. -/
def Run (σ α : Type) : Type := σ → Except Failure α × σ

def Run.pure {σ α : Type} (a : α) : Run σ α := fun st => (Except.ok a, st)

def Run.bind {σ α β : Type} (x : Run σ α) (f : α → Run σ β) : Run σ β := fun st =>
  match x st with
  | (Except.ok a, st') => f a st'
  | (Except.error e, st') => (Except.error e, st')

instance {σ : Type} : Monad (Run σ) where
  pure := Run.pure
  bind := Run.bind

/-- A Rust panic aborting the computation. -/
def Run.panic {σ α : Type} (msg : String) : Run σ α := fun st =>
  (Except.error (Failure.panic msg), st)

/-- Lift a collaborator `Result` (the `?` operator). -/
def Run.liftRes {σ α : Type} (r : Except Error α) : Run σ α := fun st =>
  match r with
  | Except.ok a => (Except.ok a, st)
  | Except.error e => (Except.error (Failure.error e), st)

/-- Lift an embedded fallible computation (the `?` operator). -/
def Run.liftFail {σ α : Type} (r : Except Failure α) : Run σ α := fun st =>
  match r with
  | Except.ok a => (Except.ok a, st)
  | Except.error e => (Except.error e, st)

/-- The main pipeline collects `println!` lines. -/
abbrev M (α : Type) : Type := Run (List String) α

/-- `println!`: one emitted line. -/
def emit (s : String) : M Unit := fun out => (Except.ok (), out ++ [s])

/-- `map_err(|err| { println!("...{err:?}"); err })?`: on a recoverable
error, print a diagnostic line naming the stage, then re-raise. Panics
bypass `map_err`. -/
def withDiag {α : Type} (msg : String) (act : M α) : M α := fun out =>
  match act out with
  | (Except.ok a, out') => (Except.ok a, out')
  | (Except.error (Failure.error e), out') =>
    (Except.error (Failure.error e), out' ++ [msg ++ e.debugStr])
  | (Except.error (Failure.panic m), out') => (Except.error (Failure.panic m), out')

/-- `let result = stage(...).await; match result { ... }`: capture a
recoverable stage error as a value; panics still abort. -/
def catchErr {α : Type} (act : M α) : M (Except Error α) := fun out =>
  match act out with
  | (Except.ok a, out') => (Except.ok (Except.ok a), out')
  | (Except.error (Failure.error e), out') => (Except.ok (Except.error e), out')
  | (Except.error (Failure.panic m), out') => (Except.error (Failure.panic m), out')

/-- Results of the collaborator calls `DeployCmd::execute` makes
(terraform runner, ansible runner, ssh client, `TestnetDeploy` methods).
The pipeline is verified over every combination of outcomes. Inventory
entries are (host name, ip address) pairs; `get_genesis_multiaddr`
returns (multiaddr, ip). -/
structure Env where
  workspace_select : Except Error Unit
  terraform_apply : Except Error Unit
  build_inventory : Except Error (List (String × String))
  ssh_build : Except Error Unit
  run_build_playbook : Except Error Unit
  genesis_inventory : Except Error (List (String × String))
  ssh_genesis : Except Error Unit
  run_genesis_playbook : Except Error Unit
  get_genesis_multiaddr : Except Error (String × String)
  run_nodes_playbook : Except Error Unit
  run_faucet_playbook : Except Error Unit
  run_rpc_client_playbook : Except Error Unit
  list_inventory : Except Error Unit

/-- Modelled from the spec: `print_duration` lives in the crate root,
which is not among the sources; §1 excludes timing/logging detail, so it
is modelled as one fixed elapsed-time report line. -/
def print_duration_line : String := "Duration: elapsed"

/-- `colored`'s `.yellow()`: ANSI-wraps the text. -/
def yellow (s : String) : String := "\x1b[33m" ++ s ++ "\x1b[0m"

/-- The text of `DeployCmd::print_ansible_run_banner` (deploy.rs lines
275-279): one println with two embedded newlines. -/
def banner_text (n total : Nat) (s : String) : String :=
  let ansible_run_msg := "Ansible Run " ++ Nat.repr n ++ " of " ++ Nat.repr total ++ ": "
  let line := String.mk (List.replicate (s.length + ansible_run_msg.length) '=')
  line ++ "\n" ++ ansible_run_msg ++ s ++ "\n" ++ line

def print_ansible_run_banner (n total : Nat) (s : String) : M Unit :=
  emit (banner_text n total s)

/-- `DeployCmd::create_infra` (deploy.rs lines 147-161). -/
def create_infra (self : DeployCmd) (env : Env) (_enable_build_vm : Bool) : M Unit :=
  Run.bind (emit ("Selecting " ++ self.name ++ " workspace...")) (fun _ =>
  Run.bind (Run.liftRes env.workspace_select) (fun _ =>
  Run.bind (emit "Running terraform apply...") (fun _ =>
  Run.bind (Run.liftRes env.terraform_apply) (fun _ =>
  emit print_duration_line))))

/-- `DeployCmd::build_safe_network_binaries` (deploy.rs lines 163-192);
`build_inventory[0]` panics when the inventory list is empty. -/
def build_safe_network_binaries (self : DeployCmd) (env : Env) : M Unit :=
  Run.bind (emit "Obtaining IP address for build VM...") (fun _ =>
  Run.bind (Run.liftRes env.build_inventory) (fun build_inventory =>
  Run.bind (match build_inventory with
            | [] => Run.panic "index out of bounds: the len is 0 but the index is 0"
            | p :: _ => Run.pure p.snd) (fun _build_ip =>
  Run.bind (Run.liftRes env.ssh_build) (fun _ =>
  Run.bind (emit "Running ansible against build VM...") (fun _ =>
  Run.bind (Run.liftFail (build_binaries_extra_vars_doc self)) (fun _extra_vars =>
  Run.bind (Run.liftRes env.run_build_playbook) (fun _ =>
  emit print_duration_line)))))))

/-- `DeployCmd::provision_genesis_node` (deploy.rs lines 194-223);
`genesis_inventory[0]` panics when the inventory list is empty. -/
def provision_genesis_node (self : DeployCmd) (env : Env) : M Unit :=
  Run.bind (Run.liftRes env.genesis_inventory) (fun genesis_inventory =>
  Run.bind (match genesis_inventory with
            | [] => Run.panic "index out of bounds: the len is 0 but the index is 0"
            | p :: _ => Run.pure p.snd) (fun _genesis_ip =>
  Run.bind (Run.liftRes env.ssh_genesis) (fun _ =>
  Run.bind (Run.liftFail (build_node_extra_vars_doc self none none)) (fun _extra_vars =>
  Run.bind (Run.liftRes env.run_genesis_playbook) (fun _ =>
  emit print_duration_line)))))

/-- `DeployCmd::provision_faucet` (deploy.rs lines 225-239). -/
def provision_faucet (self : DeployCmd) (env : Env) (genesis_multiaddr : String) : M Unit :=
  Run.bind (emit "Running ansible against genesis node to deploy faucet...") (fun _ =>
  Run.bind (Run.liftFail (build_faucet_extra_vars_doc self genesis_multiaddr)) (fun _ =>
  Run.bind (Run.liftRes env.run_faucet_playbook) (fun _ =>
  emit print_duration_line)))

/-- `DeployCmd::provision_safenode_rpc_client` (deploy.rs lines 241-255). -/
def provision_safenode_rpc_client (self : DeployCmd) (env : Env)
    (genesis_multiaddr : String) : M Unit :=
  Run.bind (emit "Running ansible against genesis node to start safenode_rpc_client service...") (fun _ =>
  Run.bind (Run.liftFail (build_safenode_rpc_client_extra_vars_doc self genesis_multiaddr)) (fun _ =>
  Run.bind (Run.liftRes env.run_rpc_client_playbook) (fun _ =>
  emit print_duration_line)))

/-- `DeployCmd::provision_remaining_nodes` (deploy.rs lines 257-271). -/
def provision_remaining_nodes (self : DeployCmd) (env : Env)
    (genesis_multiaddr : String) : M Unit :=
  Run.bind (Run.liftFail (build_node_extra_vars_doc self (some genesis_multiaddr)
    (some self.node_count))) (fun _ =>
  Run.bind (Run.liftRes env.run_nodes_playbook) (fun _ =>
  emit print_duration_line))

/-- The warning banner line (deploy.rs line 138). -/
def warning_line : String := "Some nodes failed to provision without error."

/-- `DeployCmd::execute` (deploy.rs lines 49-145): the full pipeline with
its soft-fail handling of the remaining-node stage and the final warning
block. -/
def execute (self : DeployCmd) (env : Env) : M Unit :=
  let build_custom_binaries := build_required self.sn_codebase_type
  let total : Nat := if build_custom_binaries then 5 else 4
  Run.bind (withDiag "Failed to create infra " (create_infra self env build_custom_binaries)) (fun _ =>
  Run.bind (if build_custom_binaries then
              Run.bind (print_ansible_run_banner 1 total "Build Custom Binaries") (fun _ =>
              withDiag "Failed to build safe network binaries " (build_safe_network_binaries self env))
            else Run.pure ()) (fun _ =>
  let n : Nat := if build_custom_binaries then 2 else 1
  Run.bind (print_ansible_run_banner n total "Provision Genesis Node") (fun _ =>
  Run.bind (withDiag "Failed to provision genesis node " (provision_genesis_node self env)) (fun _ =>
  Run.bind (withDiag "Failed to get genesis multiaddr " (Run.liftRes env.get_genesis_multiaddr)) (fun gm =>
  let genesis_multiaddr := gm.fst
  Run.bind (emit ("Obtained multiaddr for genesis node: " ++ genesis_multiaddr)) (fun _ =>
  Run.bind (print_ansible_run_banner (n + 1) total "Provision Remaining Nodes") (fun _ =>
  Run.bind (catchErr (provision_remaining_nodes self env genesis_multiaddr)) (fun result =>
  Run.bind (match result with
            | Except.ok _ =>
              Run.bind (emit "Provisioned all remaining nodes") (fun _ => Run.pure false)
            | Except.error _ => Run.pure true) (fun node_provision_failed =>
  Run.bind (print_ansible_run_banner (n + 2) total "Deploy Faucet") (fun _ =>
  Run.bind (withDiag "Failed to provision faucet " (provision_faucet self env genesis_multiaddr)) (fun _ =>
  Run.bind (print_ansible_run_banner (n + 3) total "Provision RPC Client on Genesis Node") (fun _ =>
  Run.bind (withDiag "Failed to provision safenode rpc client "
      (provision_safenode_rpc_client self env genesis_multiaddr)) (fun _ =>
  Run.bind (withDiag "Failed to list inventory " (Run.liftRes env.list_inventory)) (fun _ =>
  if node_provision_failed then
    Run.bind (emit "") (fun _ =>
    Run.bind (emit (yellow "WARNING!")) (fun _ =>
    Run.bind (emit warning_line) (fun _ =>
    Run.bind (emit "This usually means a small number of nodes failed to start on a few VMs.") (fun _ =>
    Run.bind (emit "However, most of the time the deployment will still be usable.") (fun _ =>
    emit "See the output from Ansible to determine which VMs had failures.")))))
  else Run.pure ()))))))))))))))

/-- Run `execute` from an empty output log. -/
def execute_run (self : DeployCmd) (env : Env) : Except Failure Unit × List String :=
  execute self env []

/-- Number of occurrences of a line in the emitted output. -/
def countEq (w : String) : List String → Nat
  | [] => 0
  | s :: rest => (if s = w then 1 else 0) + countEq w rest

/-! ### The private-node sub-pipeline (src/private_nodes.rs) -/

/-- An inventory VM entry as read by the sub-pipeline (`vm.name`,
`vm.private_ip_addr`; the ip is modelled by its display string). -/
structure VmInventory where
  name : String
  private_ip_addr : String
deriving DecidableEq

/-- Modelled from the spec: the deployment type of a snapshot (§3:
*New* vs *Bootstrap*; the enum is defined outside src/). -/
inductive DeploymentType where
  | new
  | bootstrap
deriving DecidableEq

/-- Modelled from the spec: the Deployment Inventory snapshot (§3) — the
aggregate of role-grouped entries plus environment metadata
(`DeploymentInventory` is defined outside src/); only the fields the
sub-pipeline reads are modelled, with the environment type represented by
its tfvars file name. -/
structure DeploymentInventory where
  name : String
  deployment_type : DeploymentType
  tfvars_filename : String
  auditor_vms : List VmInventory
  bootstrap_node_vms : List VmInventory
  node_vms : List VmInventory
  uploader_vms : List VmInventory
deriving DecidableEq

/-- `PrivateNodeOptions` (private_nodes.rs lines 13-17). -/
structure PrivateNodeOptions where
  ansible_verbose : Bool
  current_inventory : DeploymentInventory
deriving DecidableEq

/-- The collaborator calls the sub-pipeline makes, in order. -/
inductive PCall where
  | createOrUpdateInfra
  | provisionNatGateway (name : String) (private_ip_addr : String)
  | getInventory (inventoryType : AnsibleInventoryType)
  | provisionPrivateNodes (name : String) (vm : VmInventory) (natGateway : VmInventory)
deriving DecidableEq

/-- The sub-pipeline collects its collaborator calls. -/
abbrev P (α : Type) : Type := Run (List PCall) α

/-- Log one collaborator call. -/
def record (c : PCall) : P Unit := fun log => (Except.ok (), log ++ [c])

/-- Results of the collaborator calls `setup_private_nodes` makes. -/
structure PrivateEnv where
  create_or_update_infra : Except Error Unit
  provision_nat_gateway : Except Error Unit
  nat_gateway_inventory : Except Error (List VmInventory)
  provision_private_nodes : Except Error Unit

/-- Rust `String::contains`: substring test. -/
def string_contains (s pat : String) : Bool := decide (pat.data <:+: s.data)

/-- The host-selection expression of `setup_private_nodes`
(private_nodes.rs lines 54-68): the first node VM whose name contains
`<deployment>-node-<count>` where `<count>` is the size of the node
group; `None` becomes `Error::EmptyInventory(Nodes)`. -/
def select_private_vm (inv : DeploymentInventory) : Option VmInventory :=
  inv.node_vms.find? (fun vm =>
    string_contains vm.name (inv.name ++ "-node-" ++ Nat.repr inv.node_vms.length))

/-- Stages 3-5 of `setup_private_nodes`: provision the NAT gateway,
re-fetch the NAT-gateway inventory (`first()` errors when it is empty),
then provision the private nodes on the selected host
(private_nodes.rs lines 70-118). -/
def setup_tail (env : PrivateEnv) (options : PrivateNodeOptions)
    (private_vm_inventory : VmInventory) : P Unit :=
  Run.bind (Run.liftRes env.provision_nat_gateway) (fun _ =>
  Run.bind (record (PCall.getInventory AnsibleInventoryType.natGateway)) (fun _ =>
  Run.bind (Run.liftRes env.nat_gateway_inventory) (fun nat_inv =>
  Run.bind (match nat_inv.head? with
            | some x => Run.pure x
            | none => Run.liftRes (Except.error (Error.emptyInventory AnsibleInventoryType.natGateway)))
    (fun nat_gateway_inventory =>
  Run.bind (record (PCall.provisionPrivateNodes options.current_inventory.name
      private_vm_inventory nat_gateway_inventory)) (fun _ =>
  Run.liftRes env.provision_private_nodes)))))

/-- `TestnetDeployer::setup_private_nodes` (private_nodes.rs lines
20-119): update infra, select the private-node host, then run the
NAT-gateway/private-node tail against that host. -/
def setup_private_nodes (env : PrivateEnv) (options : PrivateNodeOptions) : P Unit :=
  Run.bind (record PCall.createOrUpdateInfra) (fun _ =>
  Run.bind (Run.liftRes env.create_or_update_infra) (fun _ =>
  Run.bind (match select_private_vm options.current_inventory with
            | some vm => Run.pure vm
            | none => Run.liftRes (Except.error (Error.emptyInventory AnsibleInventoryType.nodes)))
    (fun private_vm_inventory =>
  Run.bind (record (PCall.provisionNatGateway options.current_inventory.name
      private_vm_inventory.private_ip_addr)) (fun _ =>
  setup_tail env options private_vm_inventory))))

/-- Whether a logged call is a NAT-gateway provisioning call. -/
def PCall.isNatProvision : PCall → Bool
  | .provisionNatGateway _ _ => true
  | _ => false

/-- The call log only ever grows. -/
def LogMono {α : Type} (x : P α) : Prop := ∀ st, ∃ ext, (x st).2 = st ++ ext

theorem logMono_pure {α : Type} (a : α) : LogMono (Run.pure (σ := List PCall) a) :=
  fun _st => ⟨[], by simp [Run.pure]⟩

theorem logMono_record (c : PCall) : LogMono (record c) := fun _st => ⟨[c], rfl⟩

theorem logMono_liftRes {α : Type} (r : Except Error α) :
    LogMono (Run.liftRes (σ := List PCall) r) := by
  intro st
  cases r with
  | ok a => exact ⟨[], by simp [Run.liftRes]⟩
  | error e => exact ⟨[], by simp [Run.liftRes]⟩

theorem logMono_bind {α β : Type} {x : P α} {f : α → P β}
    (hx : LogMono x) (hf : ∀ a, LogMono (f a)) : LogMono (Run.bind x f) := by
  intro st
  obtain ⟨e1, h1⟩ := hx st
  rcases hxs : x st with ⟨r, st'⟩
  have h1' : st' = st ++ e1 := by rw [hxs] at h1; exact h1
  cases r with
  | ok a =>
    obtain ⟨e2, h2⟩ := hf a st'
    refine ⟨e1 ++ e2, ?_⟩
    show (Run.bind x f st).2 = st ++ (e1 ++ e2)
    unfold Run.bind
    rw [hxs]
    rw [h2, h1', List.append_assoc]
  | error e =>
    refine ⟨e1, ?_⟩
    show (Run.bind x f st).2 = st ++ e1
    unfold Run.bind
    rw [hxs]
    exact h1'

theorem logMono_setup_tail (env : PrivateEnv) (options : PrivateNodeOptions)
    (vm : VmInventory) : LogMono (setup_tail env options vm) := by
  unfold setup_tail
  refine logMono_bind (logMono_liftRes _) (fun _ => ?_)
  refine logMono_bind (logMono_record _) (fun _ => ?_)
  refine logMono_bind (logMono_liftRes _) (fun nat_inv => ?_)
  refine logMono_bind ?_ (fun ng => ?_)
  · cases nat_inv.head? with
    | some x => exact logMono_pure x
    | none => exact logMono_liftRes _
  · exact logMono_bind (logMono_record _) (fun _ => logMono_liftRes _)

/-! ### C10: empty inventories — panic in the main pipeline, recoverable
error in the sub-pipeline -/

/-- C10: in the main pipeline, the binary-build stage and the
genesis-provisioning stage index `inventory[0]` without an emptiness
check: when the collaborator returns an empty inventory list, each stage
aborts with an index-out-of-bounds panic (never an `InventoryEmpty`
error), whereas the private-node sub-pipeline in the same situation
returns the recoverable `EmptyInventory(Nodes)` error. -/
theorem claim_C10 :
    (∀ (self : DeployCmd) (env : Env) (out : List String),
      env.build_inventory = Except.ok [] →
      (build_safe_network_binaries self env out).1
        = Except.error (Failure.panic "index out of bounds: the len is 0 but the index is 0"))
    ∧ (∀ (self : DeployCmd) (env : Env) (out : List String),
      env.genesis_inventory = Except.ok [] →
      (provision_genesis_node self env out).1
        = Except.error (Failure.panic "index out of bounds: the len is 0 but the index is 0"))
    ∧ (∀ (env : PrivateEnv) (options : PrivateNodeOptions) (log : List PCall),
      options.current_inventory.node_vms = [] →
      env.create_or_update_infra = Except.ok () →
      (setup_private_nodes env options log).1
        = Except.error (Failure.error (Error.emptyInventory AnsibleInventoryType.nodes))) := by
  refine ⟨?_, ?_, ?_⟩
  · intro self env out h
    simp [build_safe_network_binaries, Run.bind, emit, Run.liftRes, Run.panic, h]
  · intro self env out h
    simp [provision_genesis_node, Run.bind, Run.liftRes, Run.panic, h]
  · intro env options log hvm h
    simp [setup_private_nodes, select_private_vm, Run.bind, record, Run.liftRes, hvm, h]

/-- An environment whose collaborators all succeed but whose inventory
listings come back empty. -/
abbrev c10_env : Env :=
  { workspace_select := Except.ok (), terraform_apply := Except.ok (),
    build_inventory := Except.ok [], ssh_build := Except.ok (),
    run_build_playbook := Except.ok (), genesis_inventory := Except.ok [],
    ssh_genesis := Except.ok (), run_genesis_playbook := Except.ok (),
    get_genesis_multiaddr := Except.ok ("", ""), run_nodes_playbook := Except.ok (),
    run_faucet_playbook := Except.ok (), run_rpc_client_playbook := Except.ok (),
    list_inventory := Except.ok () }

/-- A sub-pipeline environment whose collaborators all succeed. -/
abbrev penv_ok : PrivateEnv :=
  { create_or_update_infra := Except.ok (), provision_nat_gateway := Except.ok (),
    nat_gateway_inventory := Except.ok [⟨"beta-nat-gateway", "10.0.0.2"⟩],
    provision_private_nodes := Except.ok () }

/-- A snapshot with an empty node-role group. -/
abbrev c10_inv : DeploymentInventory :=
  { name := "beta", deployment_type := .new, tfvars_filename := "dev.tfvars",
    auditor_vms := [], bootstrap_node_vms := [], node_vms := [], uploader_vms := [] }

theorem claim_C10_witness :
    (build_safe_network_binaries c2_cfg c10_env []).1
        = Except.error (Failure.panic "index out of bounds: the len is 0 but the index is 0")
      ∧ (provision_genesis_node c2_cfg c10_env []).1
        = Except.error (Failure.panic "index out of bounds: the len is 0 but the index is 0")
      ∧ (setup_private_nodes penv_ok ⟨false, c10_inv⟩ []).1
        = Except.error (Failure.error (Error.emptyInventory AnsibleInventoryType.nodes)) :=
  ⟨claim_C10.1 c2_cfg c10_env [] rfl, claim_C10.2.1 c2_cfg c10_env [] rfl,
   claim_C10.2.2 penv_ok ⟨false, c10_inv⟩ [] rfl rfl⟩

/-! ### C7: host selection in the private-node sub-pipeline -/

/-- C7 (amended): with the infra stage succeeding, (1) an empty node
group makes the sub-pipeline fail with `EmptyInventory(Nodes)` before any
NAT-gateway provisioning call; (2) the same holds whenever NO node entry
has a name containing `<deployment>-node-<count>` — even for a non-empty
group, which refutes the claim as stated; (3) when the first matching
entry exists, it is the selected host: the NAT-gateway provisioning call
is made with exactly that entry's private address. -/
theorem claim_C7 {env : PrivateEnv} {options : PrivateNodeOptions}
    (hinfra : env.create_or_update_infra = Except.ok ()) :
    (options.current_inventory.node_vms = [] →
      (setup_private_nodes env options []).1
          = Except.error (Failure.error (Error.emptyInventory AnsibleInventoryType.nodes))
        ∧ ∀ c ∈ (setup_private_nodes env options []).2, c.isNatProvision = false)
    ∧ (select_private_vm options.current_inventory = none →
      (setup_private_nodes env options []).1
          = Except.error (Failure.error (Error.emptyInventory AnsibleInventoryType.nodes))
        ∧ ∀ c ∈ (setup_private_nodes env options []).2, c.isNatProvision = false)
    ∧ (∀ vm, select_private_vm options.current_inventory = some vm →
      PCall.provisionNatGateway options.current_inventory.name vm.private_ip_addr
        ∈ (setup_private_nodes env options []).2) := by
  have hnone : select_private_vm options.current_inventory = none →
      (setup_private_nodes env options []).1
          = Except.error (Failure.error (Error.emptyInventory AnsibleInventoryType.nodes))
        ∧ ∀ c ∈ (setup_private_nodes env options []).2, c.isNatProvision = false := by
    intro hsel
    constructor
    · simp [setup_private_nodes, Run.bind, record, Run.liftRes, hinfra, hsel]
    · simp [setup_private_nodes, Run.bind, record, Run.liftRes, hinfra, hsel,
        PCall.isNatProvision]
  refine ⟨?_, hnone, ?_⟩
  · intro hvm
    refine hnone ?_
    unfold select_private_vm
    rw [hvm]
    rfl
  · intro vm hsel
    have heq : setup_private_nodes env options []
        = setup_tail env options vm
            [PCall.createOrUpdateInfra,
             PCall.provisionNatGateway options.current_inventory.name vm.private_ip_addr] := by
      simp [setup_private_nodes, Run.bind, Run.pure, record, Run.liftRes, hinfra, hsel]
    obtain ⟨ext, hext⟩ := logMono_setup_tail env options vm
      [PCall.createOrUpdateInfra,
       PCall.provisionNatGateway options.current_inventory.name vm.private_ip_addr]
    rw [heq, hext]
    exact List.mem_append_left _ (by simp)

/-- A snapshot whose single node VM carries the conventional name. -/
abbrev c7w_inv : DeploymentInventory :=
  { name := "beta", deployment_type := .new, tfvars_filename := "dev.tfvars",
    auditor_vms := [], bootstrap_node_vms := [],
    node_vms := [⟨"beta-node-1", "10.0.0.5"⟩], uploader_vms := [] }

theorem claim_C7_witness :
    PCall.provisionNatGateway "beta" "10.0.0.5"
        ∈ (setup_private_nodes penv_ok ⟨false, c7w_inv⟩ []).2
      ∧ (setup_private_nodes penv_ok ⟨false, c10_inv⟩ []).1
        = Except.error (Failure.error (Error.emptyInventory AnsibleInventoryType.nodes)) :=
  ⟨(claim_C7 rfl).2.2 ⟨"beta-node-1", "10.0.0.5"⟩ (by decide),
   ((claim_C7 rfl).1 rfl).1⟩

/-- A snapshot whose node group is NON-empty but contains no entry whose
name matches `beta-node-1`. -/
abbrev c7_cex_inv : DeploymentInventory :=
  { name := "beta", deployment_type := .new, tfvars_filename := "dev.tfvars",
    auditor_vms := [], bootstrap_node_vms := [],
    node_vms := [⟨"alpha", "10.0.0.9"⟩], uploader_vms := [] }

/-- C7 counterexample: a snapshot with a NON-empty node-role group whose
single entry is named `alpha` — host selection still fails with
`EmptyInventory(Nodes)` and no host is selected, refuting the claim's
assertion that for every non-empty group the matching entry is selected. -/
theorem claim_C7_cex :
    c7_cex_inv.node_vms ≠ []
      ∧ (setup_private_nodes penv_ok ⟨false, c7_cex_inv⟩ []).1
        = Except.error (Failure.error (Error.emptyInventory AnsibleInventoryType.nodes))
      ∧ ∀ c ∈ (setup_private_nodes penv_ok ⟨false, c7_cex_inv⟩ []).2,
          c.isNatProvision = false := by
  refine ⟨by decide, rfl, by decide⟩

/-! ### Builder-success lemmas -/

theorem add_value_ends (s k v : String) :
    (add_value s k v).data = (s ++ ("\"" ++ k ++ "\": \"" ++ v ++ "\"")).data ++ [',', ' '] := by
  simp only [add_value, String.data_append, List.append_assoc]
  rfl

theorem strip_add_value (s k v : String) :
    strip_suffix (add_value s k v) ", "
      = some (String.mk ((s ++ ("\"" ++ k ++ "\": \"" ++ v ++ "\"")).data)) :=
  strip_suffix_of_data (add_value_ends s k v)

theorem binaries_ok (self : DeployCmd) :
    ∃ d, build_binaries_extra_vars_doc self = Except.ok d := by
  unfold build_binaries_extra_vars_doc
  rcases hv : self.sn_codebase_type with f | ⟨o, b, f⟩ | v <;> simp only [hv]
  · rcases f with - | feat
    · exact ⟨_, by rw [strip_add_value]⟩
    · exact ⟨_, by rw [strip_add_value]⟩
  · rcases f with - | feat
    · exact ⟨_, by rw [strip_add_value]⟩
    · exact ⟨_, by rw [strip_add_value]⟩
  · exact ⟨_, by rw [strip_add_value]⟩

theorem faucet_ok (self : DeployCmd) (g : String) :
    ∃ d, build_faucet_extra_vars_doc self g = Except.ok d := by
  unfold build_faucet_extra_vars_doc
  rcases hv : self.sn_codebase_type with f | ⟨o, b, f⟩ | v <;> simp only [hv] <;>
    exact ⟨_, by rw [strip_add_value]⟩

theorem rpc_client_ok (self : DeployCmd) (g : String) :
    ∃ d, build_safenode_rpc_client_extra_vars_doc self g = Except.ok d := by
  unfold build_safenode_rpc_client_extra_vars_doc
  rcases hv : self.sn_codebase_type with f | ⟨o, b, f⟩ | v <;> simp only [hv] <;>
    exact ⟨_, by rw [strip_add_value]⟩

theorem fold_hosts_ends :
    ∀ (hosts : List String) (acc : String), hosts ≠ [] →
      ∃ l, (hosts.foldl (fun acc host => acc ++ ("\"" ++ host ++ "\", ")) acc).data
        = l ++ [',', ' ']
  | [], _, h => absurd rfl h
  | [h0], acc, _ =>
    ⟨(acc ++ ("\"" ++ h0 ++ "\"")).data, by
      simp only [List.foldl, String.data_append, List.append_assoc]
      rfl⟩
  | h0 :: h1 :: rest, acc, _ =>
    fold_hosts_ends (h1 :: rest) (acc ++ ("\"" ++ h0 ++ "\", ")) (by simp)

theorem node_base_ok (self : DeployCmd) (gm : Option String) (nic : Option Nat) :
    ∃ s, node_vars_base self gm nic = Except.ok s := by
  cases gm with
  | none => exact ⟨_, rfl⟩
  | some g => exact ⟨_, rfl⟩

theorem node_builder_ok (self : DeployCmd) (gm : Option String) (nic : Option Nat)
    (hls : match self.logstash_details with | some pr => pr.2 ≠ [] | none => True) :
    ∃ d, build_node_extra_vars_doc self gm nic = Except.ok d := by
  unfold build_node_extra_vars_doc
  obtain ⟨s, hs⟩ := node_base_ok self gm nic
  rw [hs]
  rcases hl : self.logstash_details with - | ⟨st, hosts⟩
  · exact ⟨_, by simp only [node_vars_logstash_close, hl]; rfl⟩
  · rw [hl] at hls
    simp only [node_vars_logstash_close, hl]
    rcases hosts with - | ⟨h0, rest⟩
    · exact absurd rfl hls
    · obtain ⟨l, hfold⟩ := fold_hosts_ends (h0 :: rest)
        (add_value (node_vars_env self (node_vars_daemon self (node_vars_manager self
          (node_vars_artifact self s)))) "logstash_stack_name" st ++ "\"logstash_hosts\": [")
        (by simp)
      rw [strip_suffix_of_data hfold]
      exact ⟨_, rfl⟩

/-- With a supplied genesis address the node builder never returns a
RECOVERABLE error: it either succeeds or panics (logstash shadowing). -/
theorem node_some_no_err (self : DeployCmd) (g : String) (nic : Option Nat) (e : Error) :
    build_node_extra_vars_doc self (some g) nic ≠ Except.error (Failure.error e) := by
  intro h
  unfold build_node_extra_vars_doc at h
  obtain ⟨s, hs⟩ := node_base_ok self (some g) nic
  rw [hs] at h
  rcases hl : self.logstash_details with - | ⟨st, hosts⟩
  · simp [node_vars_logstash_close, hl] at h
  · simp only [node_vars_logstash_close, hl] at h
    split at h
    · simp at h
    · simp at h

/-! ### Line counting and line inequalities -/

theorem countEq_append (w : String) (l1 l2 : List String) :
    countEq w (l1 ++ l2) = countEq w l1 + countEq w l2 := by
  induction l1 with
  | nil => simp [countEq]
  | cons s rest ih => simp [countEq, ih]; omega

theorem countEq_cons_ne {w s : String} (h : s ≠ w) (l : List String) :
    countEq w (s :: l) = countEq w l := by
  simp [countEq, h]

theorem countEq_cons_self (w : String) (l : List String) :
    countEq w (w :: l) = 1 + countEq w l := by
  simp [countEq]

theorem ne_of_prefix1 {w : String} (p x : String) (h : ¬ p.data <+: w.data) :
    p ++ x ≠ w := by
  intro he
  apply h
  rw [← he, String.data_append]
  exact List.prefix_append _ _

theorem ne_of_prefix2 {w : String} (p x y : String) (h : ¬ p.data <+: w.data) :
    p ++ x ++ y ≠ w := by
  intro he
  apply h
  rw [← he, String.data_append, String.data_append, List.append_assoc]
  exact List.prefix_append _ _

theorem ne_of_mem_newline {s w : String} (hs : '\n' ∈ s.data) (hw : '\n' ∉ w.data) :
    s ≠ w := fun he => hw (he ▸ hs)

theorem newline_mem_banner (n total : Nat) (s : String) :
    '\n' ∈ (banner_text n total s).data := by
  unfold banner_text
  simp only [String.data_append]
  refine List.mem_append_left _ (List.mem_append_left _ (List.mem_append_left _
    (List.mem_append_left _ (List.mem_append_right _ ?_))))
  decide

theorem banner_ne_warning (n total : Nat) (s : String) :
    banner_text n total s ≠ warning_line :=
  ne_of_mem_newline (newline_mem_banner n total s) (by decide)

/-! ### Count preservation: every pipeline line other than the final
warning block differs from the warning banner line -/

/-- The action emits no occurrence of `w`. -/
def Preserves (w : String) {α : Type} (act : M α) : Prop :=
  ∀ out, countEq w (act out).2 = countEq w out

theorem preserves_pure {w : String} {α : Type} (a : α) :
    Preserves w (Run.pure (σ := List String) a) := fun _ => rfl

theorem preserves_liftRes {w : String} {α : Type} (r : Except Error α) :
    Preserves w (Run.liftRes (σ := List String) r) := by
  intro out
  cases r <;> rfl

theorem preserves_liftFail {w : String} {α : Type} (r : Except Failure α) :
    Preserves w (Run.liftFail (σ := List String) r) := by
  intro out
  cases r <;> rfl

theorem preserves_panic {w : String} {α : Type} (m : String) :
    Preserves w (Run.panic (σ := List String) (α := α) m) := fun _ => rfl

theorem preserves_emit {w s : String} (h : s ≠ w) : Preserves w (emit s) := by
  intro out
  show countEq w (out ++ [s]) = countEq w out
  rw [countEq_append, countEq_cons_ne h]
  simp [countEq]

theorem preserves_bind {w : String} {α β : Type} {x : M α} {f : α → M β}
    (hx : Preserves w x) (hf : ∀ a, Preserves w (f a)) :
    Preserves w (Run.bind x f) := by
  intro out
  unfold Run.bind
  rcases hxo : x out with ⟨r, out'⟩
  have h1 : countEq w out' = countEq w out := by rw [← hx out, hxo]
  cases r with
  | ok a =>
    dsimp
    exact (hf a out').trans h1
  | error e =>
    dsimp
    exact h1

theorem preserves_withDiag {w : String} {α : Type} {msg : String} {act : M α}
    (hact : Preserves w act) (hmsg : ∀ e : Error, msg ++ e.debugStr ≠ w) :
    Preserves w (withDiag msg act) := by
  intro out
  unfold withDiag
  rcases hao : act out with ⟨r, out'⟩
  have h1 : countEq w out' = countEq w out := by rw [← hact out, hao]
  match r with
  | Except.ok a => exact h1
  | Except.error (Failure.error e) =>
    dsimp
    rw [countEq_append, countEq_cons_ne (hmsg e)]
    simp [countEq, h1]
  | Except.error (Failure.panic m) => exact h1

theorem preserves_catchErr {w : String} {α : Type} {act : M α}
    (hact : Preserves w act) : Preserves w (catchErr act) := by
  intro out
  unfold catchErr
  rcases hao : act out with ⟨r, out'⟩
  have h1 : countEq w out' = countEq w out := by rw [← hact out, hao]
  match r with
  | Except.ok a => exact h1
  | Except.error (Failure.error e) => exact h1
  | Except.error (Failure.panic m) => exact h1

/-- Bind whose first component always yields `false`: preservation only
needs the `false` continuation. -/
theorem preserves_bind_detB {w : String} {β : Type} {x : M Bool} {f : Bool → M β}
    (hx : Preserves w x) (hval : ∀ out, (x out).1 = Except.ok false)
    (hf : Preserves w (f false)) : Preserves w (Run.bind x f) := by
  intro out
  unfold Run.bind
  rcases hxo : x out with ⟨r, out'⟩
  have h1 : countEq w out' = countEq w out := by rw [← hx out, hxo]
  have hr : r = Except.ok false := by
    have := hval out
    rw [hxo] at this
    exact this
  subst hr
  dsimp
  exact (hf out').trans h1

/-- Bind whose first component's value is known to be success-or-panic:
preservation only needs the success continuation. -/
theorem preserves_bind_det {w : String} {β : Type} {x : M (Except Error Unit)}
    {f : Except Error Unit → M β}
    (hx : Preserves w x)
    (hval : ∀ out, (x out).1 = Except.ok (Except.ok ())
      ∨ ∃ m, (x out).1 = Except.error (Failure.panic m))
    (hf : Preserves w (f (Except.ok ()))) : Preserves w (Run.bind x f) := by
  intro out
  unfold Run.bind
  rcases hxo : x out with ⟨r, out'⟩
  have h1 : countEq w out' = countEq w out := by rw [← hx out, hxo]
  rcases hval out with hv | ⟨m, hv⟩
  · have hr : r = Except.ok (Except.ok ()) := by rw [hxo] at hv; exact hv
    subst hr
    dsimp
    exact (hf out').trans h1
  · have hr : r = Except.error (Failure.panic m) := by rw [hxo] at hv; exact hv
    subst hr
    dsimp
    exact h1

/-- With the node playbook succeeding, the captured remaining-node stage
result is either success or a propagated panic — never a captured error. -/
theorem remaining_value {self : DeployCmd} {env : Env} (g : String)
    (h : env.run_nodes_playbook = Except.ok ()) :
    ∀ out, (catchErr (provision_remaining_nodes self env g) out).1
        = Except.ok (Except.ok ())
      ∨ ∃ m, (catchErr (provision_remaining_nodes self env g) out).1
        = Except.error (Failure.panic m) := by
  intro out
  unfold catchErr provision_remaining_nodes
  cases hb : build_node_extra_vars_doc self (some g) (some self.node_count) with
  | ok d =>
    left
    simp [Run.bind, Run.liftFail, Run.liftRes, emit, hb, h]
  | error fe =>
    cases fe with
    | error e => exact absurd hb (node_some_no_err self g _ e)
    | panic m =>
      right
      exact ⟨m, by simp [Run.bind, Run.liftFail, hb]⟩

theorem preserves_create_infra (w : String) (hw1 : ∀ x, "Selecting " ++ x ≠ w)
    (hw2 : "Running terraform apply..." ≠ w) (hw3 : print_duration_line ≠ w)
    (self : DeployCmd) (env : Env) (b : Bool) :
    Preserves w (create_infra self env b) := by
  unfold create_infra
  exact preserves_bind (preserves_emit (hw1 _)) (fun _ =>
    preserves_bind (preserves_liftRes _) (fun _ =>
    preserves_bind (preserves_emit hw2) (fun _ =>
    preserves_bind (preserves_liftRes _) (fun _ =>
    preserves_emit hw3))))

theorem preserves_warning_atoms :
    (∀ x, "Selecting " ++ x ≠ warning_line)
      ∧ "Running terraform apply..." ≠ warning_line
      ∧ print_duration_line ≠ warning_line
      ∧ "Obtaining IP address for build VM..." ≠ warning_line
      ∧ "Running ansible against build VM..." ≠ warning_line
      ∧ "Running ansible against genesis node to deploy faucet..." ≠ warning_line
      ∧ "Running ansible against genesis node to start safenode_rpc_client service..." ≠ warning_line
      ∧ "Provisioned all remaining nodes" ≠ warning_line
      ∧ (∀ x, "Obtained multiaddr for genesis node: " ++ x ≠ warning_line) := by
  refine ⟨fun x => ne_of_prefix1 _ _ (by decide), by decide, by decide, by decide,
    by decide, by decide, by decide, by decide,
    fun x => ne_of_prefix1 _ _ (by decide)⟩

theorem preserves_build_binaries (self : DeployCmd) (env : Env) :
    Preserves warning_line (build_safe_network_binaries self env) := by
  obtain ⟨-, -, hdur, hobt, hrab, -, -, -, -⟩ := preserves_warning_atoms
  unfold build_safe_network_binaries
  refine preserves_bind (preserves_emit hobt) (fun _ => ?_)
  refine preserves_bind (preserves_liftRes _) (fun inv => ?_)
  refine preserves_bind ?_ (fun _ => ?_)
  · cases inv with
    | nil => exact preserves_panic _
    | cons p rest => exact preserves_pure _
  · refine preserves_bind (preserves_liftRes _) (fun _ => ?_)
    refine preserves_bind (preserves_emit hrab) (fun _ => ?_)
    refine preserves_bind (preserves_liftFail _) (fun _ => ?_)
    exact preserves_bind (preserves_liftRes _) (fun _ => preserves_emit hdur)

theorem preserves_genesis_node (self : DeployCmd) (env : Env) :
    Preserves warning_line (provision_genesis_node self env) := by
  obtain ⟨-, -, hdur, -, -, -, -, -, -⟩ := preserves_warning_atoms
  unfold provision_genesis_node
  refine preserves_bind (preserves_liftRes _) (fun inv => ?_)
  refine preserves_bind ?_ (fun _ => ?_)
  · cases inv with
    | nil => exact preserves_panic _
    | cons p rest => exact preserves_pure _
  · refine preserves_bind (preserves_liftRes _) (fun _ => ?_)
    refine preserves_bind (preserves_liftFail _) (fun _ => ?_)
    exact preserves_bind (preserves_liftRes _) (fun _ => preserves_emit hdur)

theorem preserves_faucet (self : DeployCmd) (env : Env) (g : String) :
    Preserves warning_line (provision_faucet self env g) := by
  obtain ⟨-, -, hdur, -, -, hfl, -, -, -⟩ := preserves_warning_atoms
  unfold provision_faucet
  exact preserves_bind (preserves_emit hfl) (fun _ =>
    preserves_bind (preserves_liftFail _) (fun _ =>
    preserves_bind (preserves_liftRes _) (fun _ => preserves_emit hdur)))

theorem preserves_rpc_client (self : DeployCmd) (env : Env) (g : String) :
    Preserves warning_line (provision_safenode_rpc_client self env g) := by
  obtain ⟨-, -, hdur, -, -, -, hrl, -, -⟩ := preserves_warning_atoms
  unfold provision_safenode_rpc_client
  exact preserves_bind (preserves_emit hrl) (fun _ =>
    preserves_bind (preserves_liftFail _) (fun _ =>
    preserves_bind (preserves_liftRes _) (fun _ => preserves_emit hdur)))

theorem preserves_remaining (self : DeployCmd) (env : Env) (g : String) :
    Preserves warning_line (provision_remaining_nodes self env g) := by
  obtain ⟨-, -, hdur, -, -, -, -, -, -⟩ := preserves_warning_atoms
  unfold provision_remaining_nodes
  exact preserves_bind (preserves_liftFail _) (fun _ =>
    preserves_bind (preserves_liftRes _) (fun _ => preserves_emit hdur))

theorem preserves_banner (n total : Nat) (s : String) :
    Preserves warning_line (print_ansible_run_banner n total s) :=
  preserves_emit (banner_ne_warning n total s)

theorem diag_ne_warning (msg : String) (hh : msg.data.head? = some 'F') :
    ∀ e : Error, msg ++ e.debugStr ≠ warning_line := by
  intro e he
  have h1 : (msg ++ e.debugStr).data.head? = some 'F' := head_of_append_some hh
  rw [he] at h1
  exact absurd h1 (by decide)

/-- When the node playbook run succeeds, the warning banner line is never
emitted, whatever the rest of the environment does. -/
theorem no_warning_when_nodes_ok (self : DeployCmd) (env : Env)
    (h : env.run_nodes_playbook = Except.ok ()) :
    countEq warning_line (execute_run self env).2 = 0 := by
  obtain ⟨hw1, hw2, hdur, -, -, -, -, hprov, hobt⟩ := preserves_warning_atoms
  suffices hp : Preserves warning_line (execute self env) by
    show countEq warning_line (execute self env []).2 = 0
    rw [hp []]
    rfl
  unfold execute
  refine preserves_bind (preserves_withDiag
    (preserves_create_infra _ hw1 hw2 hdur self env _) (diag_ne_warning _ rfl)) (fun _ => ?_)
  refine preserves_bind ?_ (fun _ => ?_)
  · by_cases hb : build_required self.sn_codebase_type
    · rw [if_pos hb]
      exact preserves_bind (preserves_banner _ _ _) (fun _ =>
        preserves_withDiag (preserves_build_binaries self env) (diag_ne_warning _ rfl))
    · rw [if_neg hb]
      exact preserves_pure _
  · refine preserves_bind (preserves_banner _ _ _) (fun _ => ?_)
    refine preserves_bind (preserves_withDiag (preserves_genesis_node self env)
      (diag_ne_warning _ rfl)) (fun _ => ?_)
    refine preserves_bind (preserves_withDiag (preserves_liftRes _)
      (diag_ne_warning _ rfl)) (fun gm => ?_)
    refine preserves_bind (preserves_emit (hobt _)) (fun _ => ?_)
    refine preserves_bind (preserves_banner _ _ _) (fun _ => ?_)
    refine preserves_bind_det (preserves_catchErr (preserves_remaining self env _))
      (remaining_value _ h) ?_
    refine preserves_bind_detB (preserves_bind (preserves_emit hprov)
      (fun _ => preserves_pure _)) (fun out => rfl) ?_
    refine preserves_bind (preserves_banner _ _ _) (fun _ => ?_)
    refine preserves_bind (preserves_withDiag (preserves_faucet self env _)
      (diag_ne_warning _ rfl)) (fun _ => ?_)
    refine preserves_bind (preserves_banner _ _ _) (fun _ => ?_)
    refine preserves_bind (preserves_withDiag (preserves_rpc_client self env _)
      (diag_ne_warning _ rfl)) (fun _ => ?_)
    refine preserves_bind (preserves_withDiag (preserves_liftRes _)
      (diag_ne_warning _ rfl)) (fun _ => ?_)
    exact preserves_pure _

/-- C1: for every deployment configuration, when every collaborator call
succeeds except the remaining-node playbook run (which returns an error),
`execute` still returns Ok and the warning banner text "Some nodes failed
to provision without error." is emitted exactly once; and whenever the
remaining-node playbook run succeeds, the warning line is never emitted,
whatever the rest of the environment does. -/
theorem claim_C1 {self : DeployCmd} {env : Env} {bi gi : List (String × String)}
    {ga : String × String} {e : Error}
    (hws : env.workspace_select = Except.ok ())
    (hta : env.terraform_apply = Except.ok ())
    (hbuild : build_required self.sn_codebase_type = true →
      env.build_inventory = Except.ok bi ∧ env.ssh_build = Except.ok ()
        ∧ env.run_build_playbook = Except.ok ())
    (hbne : build_required self.sn_codebase_type = true → bi ≠ [])
    (hgi : env.genesis_inventory = Except.ok gi) (hgine : gi ≠ [])
    (hsshg : env.ssh_genesis = Except.ok ())
    (hgp : env.run_genesis_playbook = Except.ok ())
    (hga : env.get_genesis_multiaddr = Except.ok ga)
    (hnodes : env.run_nodes_playbook = Except.error e)
    (hfau : env.run_faucet_playbook = Except.ok ())
    (hrpc : env.run_rpc_client_playbook = Except.ok ())
    (hli : env.list_inventory = Except.ok ())
    (hls : match self.logstash_details with | some pr => pr.2 ≠ [] | none => True) :
    (execute_run self env).1 = Except.ok ()
      ∧ countEq warning_line (execute_run self env).2 = 1
      ∧ ∀ (self2 : DeployCmd) (env2 : Env), env2.run_nodes_playbook = Except.ok () →
          countEq warning_line (execute_run self2 env2).2 = 0 := by
  obtain ⟨gd, hgd⟩ := node_builder_ok self none none hls
  obtain ⟨nd, hnd⟩ := node_builder_ok self (some ga.fst) (some self.node_count) hls
  obtain ⟨fd, hfd⟩ := faucet_ok self ga.fst
  obtain ⟨rd, hrd⟩ := rpc_client_ok self ga.fst
  obtain ⟨bd, hbd⟩ := binaries_ok self
  obtain ⟨gp, gi', rfl⟩ : ∃ p rest, gi = p :: rest := by
    cases gi with
    | nil => exact absurd rfl hgine
    | cons p rest => exact ⟨p, rest, rfl⟩
  have hne1 : ∀ x, ("Selecting " ++ x ++ " workspace...") ≠ warning_line :=
    fun x => ne_of_prefix2 _ x _ (by decide)
  have hne2 : ∀ x, ("Obtained multiaddr for genesis node: " ++ x) ≠ warning_line :=
    fun x => ne_of_prefix1 _ x (by decide)
  have hne3 : ("Running terraform apply..." : String) ≠ warning_line := by decide
  have hne4 : print_duration_line ≠ warning_line := by decide
  have hne5 : ("Obtaining IP address for build VM..." : String) ≠ warning_line := by decide
  have hne6 : ("Running ansible against build VM..." : String) ≠ warning_line := by decide
  have hne7 : ("Running ansible against genesis node to deploy faucet..." : String)
      ≠ warning_line := by decide
  have hne8 : ("Running ansible against genesis node to start safenode_rpc_client service..." : String)
      ≠ warning_line := by decide
  have hne9 : ("" : String) ≠ warning_line := by decide
  have hne10 : yellow "WARNING!" ≠ warning_line := by decide
  have hne11 : ("This usually means a small number of nodes failed to start on a few VMs." : String)
      ≠ warning_line := by decide
  have hne12 : ("However, most of the time the deployment will still be usable." : String)
      ≠ warning_line := by decide
  have hne13 : ("See the output from Ansible to determine which VMs had failures." : String)
      ≠ warning_line := by decide
  rcases hbf : build_required self.sn_codebase_type with - | -
  · refine ⟨?_, ?_, fun self2 env2 h2 => no_warning_when_nodes_ok self2 env2 h2⟩
    · simp [execute_run, execute, create_infra, provision_genesis_node,
        provision_remaining_nodes, provision_faucet, provision_safenode_rpc_client,
        print_ansible_run_banner, withDiag, catchErr, emit, Run.bind, Run.pure,
        Run.liftRes, Run.liftFail, hbf, hws, hta, hgi, hsshg, hgp, hga, hnodes,
        hfau, hrpc, hli, hgd, hnd, hfd, hrd]
    · simp [execute_run, execute, create_infra, provision_genesis_node,
        provision_remaining_nodes, provision_faucet, provision_safenode_rpc_client,
        print_ansible_run_banner, withDiag, catchErr, emit, Run.bind, Run.pure,
        Run.liftRes, Run.liftFail, hbf, hws, hta, hgi, hsshg, hgp, hga, hnodes,
        hfau, hrpc, hli, hgd, hnd, hfd, hrd, countEq, banner_ne_warning,
        hne1, hne2, hne3, hne4, hne7, hne8, hne9, hne10, hne11, hne12, hne13]
  · obtain ⟨hbinv, hbssh, hbpb⟩ := hbuild hbf
    obtain ⟨bp, bi', rfl⟩ : ∃ p rest, bi = p :: rest := by
      cases bi with
      | nil => exact absurd rfl (hbne hbf)
      | cons p rest => exact ⟨p, rest, rfl⟩
    refine ⟨?_, ?_, fun self2 env2 h2 => no_warning_when_nodes_ok self2 env2 h2⟩
    · simp [execute_run, execute, create_infra, build_safe_network_binaries,
        provision_genesis_node, provision_remaining_nodes, provision_faucet,
        provision_safenode_rpc_client, print_ansible_run_banner, withDiag, catchErr,
        emit, Run.bind, Run.pure, Run.liftRes, Run.liftFail, hbf, hws, hta, hbinv,
        hbssh, hbpb, hbd, hgi, hsshg, hgp, hga, hnodes, hfau, hrpc, hli, hgd, hnd,
        hfd, hrd]
    · simp [execute_run, execute, create_infra, build_safe_network_binaries,
        provision_genesis_node, provision_remaining_nodes, provision_faucet,
        provision_safenode_rpc_client, print_ansible_run_banner, withDiag, catchErr,
        emit, Run.bind, Run.pure, Run.liftRes, Run.liftFail, hbf, hws, hta, hbinv,
        hbssh, hbpb, hbd, hgi, hsshg, hgp, hga, hnodes, hfau, hrpc, hli, hgd, hnd,
        hfd, hrd, countEq, banner_ne_warning, hne1, hne2, hne3, hne4, hne5, hne6,
        hne7, hne8, hne9, hne10, hne11, hne12, hne13]

/-- An environment where every collaborator call succeeds except the
remaining-node playbook run. -/
abbrev c1_env : Env :=
  { workspace_select := Except.ok (), terraform_apply := Except.ok (),
    build_inventory := Except.ok [("beta-build", "10.0.0.3")],
    ssh_build := Except.ok (), run_build_playbook := Except.ok (),
    genesis_inventory := Except.ok [("beta-genesis", "10.0.0.4")],
    ssh_genesis := Except.ok (), run_genesis_playbook := Except.ok (),
    get_genesis_multiaddr := Except.ok ("/ip4/10.0.0.4/tcp/1234/p2p/Qm", "10.0.0.4"),
    run_nodes_playbook := Except.error (Error.external "ansible exited with code 2"),
    run_faucet_playbook := Except.ok (), run_rpc_client_playbook := Except.ok (),
    list_inventory := Except.ok () }

theorem claim_C1_witness :
    (execute_run c2_cfg c1_env).1 = Except.ok ()
      ∧ countEq warning_line (execute_run c2_cfg c1_env).2 = 1 := by
  have h := @claim_C1 c2_cfg c1_env [("beta-build", "10.0.0.3")]
    [("beta-genesis", "10.0.0.4")] ("/ip4/10.0.0.4/tcp/1234/p2p/Qm", "10.0.0.4")
    (Error.external "ansible exited with code 2")
    rfl rfl (fun hh => ⟨rfl, rfl, rfl⟩) (fun hh => by decide) rfl (by decide)
    rfl rfl rfl rfl rfl rfl rfl trivial
  exact ⟨h.1, h.2.1⟩

end SnDeploy
